import Mathlib

/-!
Shallow embedding of the grid-trading reconciliation engine
(`core/strategy_lib.py`, `strategy_manager.py`) and proofs of the
specification claims about it.

Real numbers of the Python source (prices, volumes, timestamps) are
modelled as rationals `ℚ`; Python's `round` (banker's rounding,
half-to-even) is modelled exactly by `pyRound` / `pyRoundTo`.
Python strings used as enums (`mode`, `side`, `out_of_range_action`)
are kept as `String`, matching the source's string comparisons.
-/

namespace Inv

/-- Python's `abs` on a rational, written with an explicit comparison so
that `simp`/`norm_num` can evaluate it on concrete inputs. -/
def pyAbs (q : ℚ) : ℚ := if q < 0 then -q else q

/-- Python's binary `max` on rationals. -/
def pyMax (a b : ℚ) : ℚ := if a < b then b else a

/-- Python's binary `min` on rationals. -/
def pyMin (a b : ℚ) : ℚ := if b < a then b else a

/-- Python's built-in `round(x)` on a rational: round half to even. -/
def pyRound (q : ℚ) : ℤ :=
  let f : ℤ := ⌊q⌋
  let r : ℚ := q - (f : ℚ)
  if r < 1/2 then f
  else if 1/2 < r then f + 1
  else if f % 2 = 0 then f else f + 1

/-- Python's `round(x, n)` for nonnegative `n`: round half to even at the
`n`-th decimal place. -/
def pyRoundTo (q : ℚ) (n : ℕ) : ℚ :=
  (pyRound (q * (10 : ℚ) ^ n) : ℚ) / (10 : ℚ) ^ n

/-- Cached symbol metadata (`GridStrategy._cache_symbol_info`):
`digits`, `point`, `stop_level = trade_stops_level*point`, volume bounds. -/
structure SymbolInfo where
  digits : ℕ
  point : ℚ
  stop_level : ℚ
  vol_min : ℚ
  vol_max : ℚ
  vol_step : ℚ
deriving Repr, DecidableEq

/-- A market tick (`mt5.symbol_info_tick`). -/
structure Tick where
  bid : ℚ
  ask : ℚ
  time : ℚ
deriving Repr, DecidableEq

/-- One bar of rate history (`mt5.copy_rates_from_pos` row). -/
structure Bar where
  high : ℚ
  low : ℚ
  close : ℚ
  tick_volume : ℚ
deriving Repr, DecidableEq

/-- Pending-order kinds that the engine inspects
(`mt5.ORDER_TYPE_BUY_LIMIT` / `mt5.ORDER_TYPE_SELL_LIMIT` / anything else). -/
inductive OrderKind | buyLimit | sellLimit | otherKind
deriving Repr, DecidableEq

/-- Position kinds (`mt5.POSITION_TYPE_BUY` / `mt5.POSITION_TYPE_SELL`). -/
inductive PosKind | posBuy | posSell
deriving Repr, DecidableEq

/-- A live pending order as seen by the engine (`OrderView`). -/
structure Order where
  ticket : ℤ
  kind : OrderKind
  price_open : ℚ
  volume_current : ℚ
  magic : ℤ
  symbol : String
deriving Repr, DecidableEq

/-- A live position as seen by the engine (`PositionView`).
`sl = 0` models an absent stop-loss (falsy in the Python source). -/
structure Position where
  ticket : ℤ
  kind : PosKind
  price_open : ℚ
  volume : ℚ
  magic : ℤ
  symbol : String
  profit : ℚ
  sl : ℚ
  tp : ℚ
deriving Repr, DecidableEq

/-- The full mutable state of one `GridStrategy` instance: its config
fields plus its runtime fields, exactly the attributes set in
`GridStrategy.__init__`. -/
structure GridStrategy where
  symbol : String
  base_step : ℚ
  step : ℚ
  tp_dist : ℚ
  lot : ℚ
  magic : ℤ
  window : ℕ
  min_price : ℚ
  max_price : ℚ
  enabled : Bool
  pause_until : ℚ
  use_atr : Bool
  atr_period : ℕ
  atr_factor : ℚ
  mode : String
  buy_window : ℕ
  sell_window : ℕ
  out_of_range_action : String
  atr_update_seconds : ℚ
  atr_smooth : ℚ
  atr_change_threshold : ℚ
  min_step_mult : ℚ
  max_step_mult : ℚ
  anchor : Option ℚ
  recenter_steps : ℤ
  recenter_cooldown : ℚ
  last_recenter_time : ℚ
  max_long_pos : Option ℤ
  max_short_pos : Option ℤ
  max_long_vol : Option ℚ
  max_short_vol : Option ℚ
  max_net_vol : Option ℚ
  max_spread_points : Option ℚ
  extreme_mode : String
  extreme_cooldown : ℚ
  max_new_orders_per_update : ℕ
  hedge_enabled : Bool
  hedge_fraction : ℚ
  hedge_tranches : ℤ
  hedge_entry_steps : ℤ
  hedge_exit_steps : ℤ
  hedge_cooldown : ℚ
  max_gross_vol : Option ℚ
  hedge_vol_lookback : ℕ
  hedge_vol_window : ℕ
  hedge_vol_quantile : ℚ
  hedge_vol_base : ℕ
  hedge_vol_mult : ℚ
  be_trigger_steps : ℤ
  be_buffer_points : ℤ
  last_hedge_time : ℚ
  last_hedge_entry_price : Option ℚ
  rates_cache_ts : ℚ
  rates_cache : Option (List Bar)
  last_atr_value : Option ℚ
  last_atr_time : ℚ
  last_tick_time : ℚ
  info : SymbolInfo

namespace GridStrategy

/-- `GridStrategy._normalize_price`: round to the symbol's decimal digits. -/
def normalize_price (s : GridStrategy) (price : ℚ) : ℚ :=
  pyRoundTo price s.info.digits

/-- `GridStrategy._normalize_volume`: snap to the volume step, clamp to
`[vol_min, vol_max]`, round to 2 decimals. -/
def normalize_volume (s : GridStrategy) (vol : ℚ) : ℚ :=
  let vol' := if 0 < s.info.vol_step then
      (pyRound (vol / s.info.vol_step) : ℚ) * s.info.vol_step
    else vol
  pyRoundTo (pyMax s.info.vol_min (pyMin s.info.vol_max vol')) 2

/-- `GridStrategy._get_grid_level`: snap `price` to the nearest grid line
anchored at `anchor`; degenerate `step ≤ 0` returns `price` unchanged. -/
def get_grid_level (s : GridStrategy) (price anchor : ℚ) : ℚ :=
  if s.step ≤ 0 then price
  else anchor + (pyRound ((price - anchor) / s.step) : ℚ) * s.step

/-- `GridStrategy._init_anchor_if_needed`: when the anchor is unset, snap
the mid price to the nearest multiple of `step` from zero and store it. -/
def init_anchor_if_needed (s : GridStrategy) (mid_price : ℚ) : GridStrategy :=
  match s.anchor with
  | some _ => s
  | none =>
      let base0 := (pyRound (mid_price / s.step) : ℚ) * s.step
      { s with anchor := some (s.normalize_price base0) }

/-- `GridStrategy._allow_side`: the risk gate.  `side` is the Python
string argument; any string other than `"buy"` takes the sell branch,
exactly as the source's `if side == "buy" ... else ...`. -/
def allow_side (s : GridStrategy) (side : String)
    (long_vol short_vol pending_buy_vol pending_sell_vol net_vol : ℚ) : Bool :=
  match s.max_net_vol with
  | none => true
  | some cap =>
    if s.mode = "neutral" then
      if side = "buy" then pyAbs (net_vol + s.lot) ≤ cap
      else pyAbs (net_vol - s.lot) ≤ cap
    else if s.mode = "long" then
      if side = "buy" then long_vol + pending_buy_vol + s.lot ≤ cap
      else true
    else if s.mode = "short" then
      if side = "sell" then short_vol + pending_sell_vol + s.lot ≤ cap
      else true
    else true

end GridStrategy

/-- `GridStrategy.__init__` with the source's default keyword values:
only `symbol`, `step`, `tp_dist`, `lot`, `magic` and the cached symbol
info vary; every other field takes the Python default, and the runtime
fields take their construction-time values (`pause_until = 0`,
`anchor = None`, …). -/
def GridStrategy.init (symbol : String) (step tp_dist lot : ℚ) (magic : ℤ)
    (info : SymbolInfo) : GridStrategy :=
  { symbol := symbol
    base_step := step
    step := step
    tp_dist := tp_dist
    lot := lot
    magic := magic
    window := 6
    min_price := 0
    max_price := 999999
    enabled := true
    pause_until := 0
    use_atr := false
    atr_period := 14
    atr_factor := 1
    mode := "neutral"
    buy_window := 6
    sell_window := 6
    out_of_range_action := "freeze"
    atr_update_seconds := 5
    atr_smooth := 1/10
    atr_change_threshold := 1/100
    min_step_mult := 1/2
    max_step_mult := 3
    anchor := none
    recenter_steps := 3
    recenter_cooldown := 30
    last_recenter_time := 0
    max_long_pos := none
    max_short_pos := none
    max_long_vol := none
    max_short_vol := none
    max_net_vol := none
    max_spread_points := none
    extreme_mode := "freeze"
    extreme_cooldown := 30
    max_new_orders_per_update := 10
    hedge_enabled := false
    hedge_fraction := 3333/10000
    hedge_tranches := 3
    hedge_entry_steps := 1
    hedge_exit_steps := 1
    hedge_cooldown := 20
    max_gross_vol := none
    hedge_vol_lookback := 300
    hedge_vol_window := 20
    hedge_vol_quantile := 9/10
    hedge_vol_base := 200
    hedge_vol_mult := 3
    be_trigger_steps := 1
    be_buffer_points := 20
    last_hedge_time := 0
    last_hedge_entry_price := none
    rates_cache_ts := 0
    rates_cache := none
    last_atr_value := none
    last_atr_time := 0
    last_tick_time := 0
    info := info }

/-- The default symbol metadata used by `_cache_symbol_info` when
`mt5.symbol_info` fails: digits=2, point=0.01, stop_level=0,
vol_min=0.01, vol_max=100, vol_step=0.01. -/
def defaultInfo : SymbolInfo :=
  { digits := 2, point := 1/100, stop_level := 0
    vol_min := 1/100, vol_max := 100, vol_step := 1/100 }

/-- The spec's per-mode risk rule (§4.2 RiskGate), written from the spec's
words, to be compared against `GridStrategy.allow_side`. -/
def specRiskAllow (mode : String) (capOpt : Option ℚ) (lot : ℚ) (side : String)
    (long_vol short_vol pending_buy_vol pending_sell_vol net_vol : ℚ) : Bool :=
  match capOpt with
  | none => true
  | some cap =>
    if mode = "neutral" then
      if side = "buy" then |net_vol + lot| ≤ cap else |net_vol - lot| ≤ cap
    else if mode = "long" then
      if side = "buy" then long_vol + pending_buy_vol + lot ≤ cap else true
    else
      if side = "sell" then short_vol + pending_sell_vol + lot ≤ cap else true

/-! ### Python list helpers

Executable models of the Python list operations the engine uses
(`sum`, `sorted`, `list.sort(reverse=True)`, negative-index slicing),
written with propositional `if`s so `simp`/`norm_num` can run them. -/

/-- Python `sum` over a list of rationals. -/
def qSum : List ℚ → ℚ
  | [] => 0
  | x :: xs => x + qSum xs

/-- Stable ascending insertion (helper for Python `sorted`). -/
def insAsc (x : ℚ) : List ℚ → List ℚ
  | [] => [x]
  | y :: ys => if x ≤ y then x :: y :: ys else y :: insAsc x ys

/-- Python `sorted(xs)` (ascending). -/
def pySorted : List ℚ → List ℚ
  | [] => []
  | x :: xs => insAsc x (pySorted xs)

/-- Stable descending insertion (helper for `list.sort(reverse=True)`). -/
def insDesc (x : ℚ) : List ℚ → List ℚ
  | [] => [x]
  | y :: ys => if y < x then x :: y :: ys else y :: insDesc x ys

/-- Python `xs.sort(reverse=True)` (descending). -/
def pySortDesc : List ℚ → List ℚ
  | [] => []
  | x :: xs => insDesc x (pySortDesc xs)

/-- Python `l[-n:]`: the last `n` elements; `l[-0:]` is the whole list. -/
def pyLastN {α : Type} (l : List α) (n : ℕ) : List α :=
  if n = 0 then l else l.drop (l.length - n)

/-- Python `l[-a:-b]` (used as `v[-(base+win):-win]`): elements from
index `len-a` (clamped at 0) up to `len-b`; empty when `b = 0`. -/
def pySliceNeg {α : Type} (l : List α) (a b : ℕ) : List α :=
  let st := l.length - min a l.length
  let en := if b = 0 then 0 else l.length - min b l.length
  (l.take en).drop st

/-- Membership of a rational in a list (Python `in` over a set of floats),
with propositional `if`s for evaluability. -/
def qElem (x : ℚ) : List ℚ → Bool
  | [] => false
  | y :: ys => if x = y then true else qElem x ys

/-! ### The market environment

One reconciliation pass interacts with the MT5 gateway through
`symbol_info_tick`, `copy_rates_from_pos` (M15 for ATR, M1 for the hedge
gates), `orders_get(symbol=...)` (inside `clear_old_orders`) and
`order_send`.  The environment packages those responses.  `order_send`
is modelled as a deterministic function of the request; `none` models
the Python call returning `None`. -/

/-- An `order_send` request, carrying every field the engine varies.
`useFilling` records whether the `type_filling` key is present (it is
deleted for the one retry on retcode 10030). -/
inductive OrderRequest
  | pendingBuy (price tp vol : ℚ) (useFilling : Bool)
  | pendingSell (price tp vol : ℚ) (useFilling : Bool)
  | removeOrder (ticket : ℤ)
  | hedgeSell (vol price : ℚ)
  | closeSell (ticket : ℤ) (vol price : ℚ)
  | sltp (ticket : ℤ) (sl tp : ℚ)
deriving Repr, DecidableEq

/-- An `order_send` result: retcode plus the returned order ticket. -/
structure SendRes where
  retcode : ℤ
  order : ℤ
deriving Repr, DecidableEq

/-- The external inputs of one reconciliation pass. `now` models
`time.time()` (taken as constant within the pass); `m15Rates` is the
response to the ATR bar request, `m1Rates` to the hedge bar request
(`count=450`); `symOrders` is the response of `orders_get(symbol=...)`
made by `clear_old_orders`. -/
structure Env where
  now : ℚ
  tick : Option Tick
  m15Rates : Option (List Bar)
  m1Rates : Option (List Bar)
  symOrders : List Order
  send : OrderRequest → Option SendRes

/-- Observable market effects of a pass.  `placeBuy`/`placeSell`/
`hedgeOpen`/`hedgeClose` are recorded only when `order_send` succeeded
(retcode DONE=10009 or PLACED=10008); `cancel` and `moveSL` are recorded
when the request is sent (the source ignores their results). -/
inductive Action
  | placeBuy (price : ℚ)
  | placeSell (price : ℚ)
  | cancel (ticket : ℤ)
  | hedgeOpen (vol : ℚ)
  | hedgeClose (ticket : ℤ) (vol : ℚ)
  | moveSL (ticket : ℤ) (sl : ℚ)
deriving Repr, DecidableEq

namespace GridStrategy

/-- `GridStrategy._handle_order_error`: deterministic mapping from a
failed retcode to a pause or a disable. -/
def handle_order_error (s : GridStrategy) (now : ℚ) (retcode : ℤ) : GridStrategy :=
  if retcode = 10018 then { s with pause_until := now + 300 }
  else if retcode = 10027 then { s with enabled := false }
  else if retcode = 10004 then { s with pause_until := now + 1 }
  else if retcode = 10013 then { s with enabled := false }
  else if retcode = 10014 then { s with enabled := false }
  else { s with pause_until := now + 5 }

/-- `GridStrategy._maybe_recenter`: within the cooldown it is a no-op;
otherwise, when the drift in step units reaches `recenter_steps`, the
anchor moves to the grid level nearest `mid_price` and the cooldown
timer resets.  Returns the mutated strategy and whether a move occurred.
(The source reads `self.anchor` after initialization; an unset anchor is
read as 0 here, which the engine never does.) -/
def maybe_recenter (s : GridStrategy) (mid_price now : ℚ) : GridStrategy × Bool :=
  if now - s.last_recenter_time < s.recenter_cooldown then (s, false)
  else
    let a := s.anchor.getD 0
    let drift_steps := (mid_price - a) / s.step
    if pyAbs drift_steps < (s.recenter_steps : ℚ) then (s, false)
    else
      let new_anchor := s.normalize_price (s.get_grid_level mid_price a)
      ({ s with anchor := some new_anchor, last_recenter_time := now }, true)

/-- `GridStrategy._calculate_atr`: cached within `atr_update_seconds`;
otherwise the true-range mean over the last `atr_period` bars, smoothed
exponentially by `atr_smooth`, with the cache timestamp updated. -/
def calculate_atr (s : GridStrategy) (env : Env) : GridStrategy × Option ℚ :=
  if env.now - s.last_atr_time < s.atr_update_seconds then (s, s.last_atr_value)
  else
    match env.m15Rates with
    | none => (s, none)
    | some rates =>
      if rates.length < s.atr_period + 1 then (s, none)
      else
        let pairs := rates.zip (rates.drop 1)
        let trs := pairs.map (fun pc =>
          pyMax (pc.2.high - pc.2.low)
            (pyMax (pyAbs (pc.2.high - pc.1.close)) (pyAbs (pc.2.low - pc.1.close))))
        let raw := qSum trs / (trs.length : ℚ)
        let v := match s.last_atr_value with
          | none => raw
          | some old => old * (1 - s.atr_smooth) + raw * s.atr_smooth
        ({ s with last_atr_value := some v, last_atr_time := env.now }, some v)

/-- `GridStrategy._get_m1_rates_cached` with the call-site arguments
`n=450, cache_sec=10`: serve the cache while it is fresh, otherwise
fetch; reject a fetch shorter than `int(450*0.7) = 315` bars. -/
def get_m1_rates_cached (s : GridStrategy) (env : Env) :
    GridStrategy × Option (List Bar) :=
  if s.rates_cache ≠ none ∧ env.now - s.rates_cache_ts < 10 then (s, s.rates_cache)
  else
    match env.m1Rates with
    | none => (s, none)
    | some rates =>
      if rates.length < 315 then (s, none)
      else ({ s with rates_cache := some rates, rates_cache_ts := env.now }, some rates)

/-- `GridStrategy._quantile`: linear-interpolated quantile of a list
(`int(pos)` truncates; `pos ≥ 0` here, so it is the floor). -/
def quantile (arr : List ℚ) (q : ℚ) : Option ℚ :=
  let xs := pySorted arr
  match xs with
  | [] => none
  | _ :: _ =>
    if q ≤ 0 then some (xs.getD 0 0)
    else if 1 ≤ q then some (xs.getD (xs.length - 1) 0)
    else
      let pos : ℚ := ((xs.length - 1 : ℕ) : ℚ) * q
      let lo : ℕ := (⌊pos⌋).toNat
      let hi : ℕ := min (lo + 1) (xs.length - 1)
      let frac : ℚ := pos - (lo : ℚ)
      some (xs.getD lo 0 * (1 - frac) + xs.getD hi 0 * frac)

/-- `GridStrategy._volatility_gate`: mean bar range over the last
`hedge_vol_window` bars must reach the `hedge_vol_quantile` quantile of
the ranges over the last `hedge_vol_lookback` bars.  Only the boolean is
used by the caller (the other tuple items are logged). -/
def volatility_gate (s : GridStrategy) (rates : List Bar) : Bool :=
  let lb := s.hedge_vol_lookback
  let win := s.hedge_vol_window
  let r := if lb ≤ rates.length then pyLastN rates lb else rates
  let ranges := r.map (fun x => x.high - x.low)
  if ranges.length < win + 10 then false
  else
    let cur := qSum (pyLastN ranges win) / (win : ℚ)
    match quantile ranges s.hedge_vol_quantile with
    | none => false
    | some thr => if thr ≤ cur then true else false

/-- `GridStrategy._volume_gate`: mean recent tick-volume must reach
`hedge_vol_mult` times the baseline average over the preceding
`hedge_vol_base` bars. -/
def volume_gate (s : GridStrategy) (rates : List Bar) : Bool :=
  let base := s.hedge_vol_base
  let win := s.hedge_vol_window
  let v := rates.map (fun x => x.tick_volume)
  if v.length < base + win + 10 then false
  else
    let cur := qSum (pyLastN v win) / (win : ℚ)
    let basev := qSum (pySliceNeg v (base + win) win) / (base : ℚ)
    if basev ≤ 0 then false
    else if s.hedge_vol_mult * basev ≤ cur then true else false

/-- The shared body of `_place_buy_order` / `_place_sell_order` (the two
methods are textually identical up to the request direction): send the
pending request; on retcode 10030 retry once without the filling flag;
on requote (10004) retry once more after re-fetching the tick; any other
failure goes to `_handle_order_error`.  Returns the possibly mutated
strategy, the order ticket on success (`None` otherwise), and the
successful placement as an `Action`.  `mkReq b` builds the request with
(`b = true`) or without the filling flag. -/
def pending_protocol (s : GridStrategy) (env : Env)
    (mkReq : Bool → OrderRequest) (act : Action) :
    GridStrategy × Option ℤ × List Action :=
  match env.send (mkReq true) with
  | none => (s, none, [])
  | some r0 =>
    let req1 : OrderRequest := if r0.retcode = 10030 then mkReq false else mkReq true
    let r1? : Option SendRes :=
      if r0.retcode = 10030 then env.send req1 else some r0
    match r1? with
    | none => (s, none, [])
    | some r1 =>
      if r1.retcode = 10009 ∨ r1.retcode = 10008 then
        (s, some r1.order, [act])
      else if r1.retcode = 10004 then
        match env.tick with
        | some _ =>
          match env.send req1 with
          | none => (s, none, [])
          | some r2 =>
            if r2.retcode = 10009 ∨ r2.retcode = 10008 then
              (s, some r2.order, [act])
            else (s.handle_order_error env.now r2.retcode, none, [])
        | none => (s.handle_order_error env.now r1.retcode, none, [])
      else (s.handle_order_error env.now r1.retcode, none, [])

/-- `GridStrategy._place_buy_order`. -/
def place_buy_order (s : GridStrategy) (env : Env) (price0 : ℚ) :
    GridStrategy × Option ℤ × List Action :=
  let price := s.normalize_price price0
  let tp := s.normalize_price (price + s.tp_dist)
  let vol := s.normalize_volume s.lot
  pending_protocol s env (fun b => .pendingBuy price tp vol b) (.placeBuy price)

/-- `GridStrategy._place_sell_order`. -/
def place_sell_order (s : GridStrategy) (env : Env) (price0 : ℚ) :
    GridStrategy × Option ℤ × List Action :=
  let price := s.normalize_price price0
  let tp := s.normalize_price (price - s.tp_dist)
  let vol := s.normalize_volume s.lot
  pending_protocol s env (fun b => .pendingSell price tp vol b) (.placeSell price)

/-- `GridStrategy._open_hedge_sell`: market sell at the bid with the
normalized volume; returns the normalized volume and the raw result. -/
def open_hedge_sell (s : GridStrategy) (env : Env) (vol : ℚ) :
    ℚ × Option SendRes :=
  match env.tick with
  | none => (vol, none)
  | some t =>
    let vol' := s.normalize_volume vol
    let price := s.normalize_price t.bid
    (vol', env.send (.hedgeSell vol' price))

/-- `GridStrategy._close_sell_position`: buy back `vol` of a short
position at the ask. -/
def close_sell_position (s : GridStrategy) (env : Env) (ticket : ℤ) (vol : ℚ) :
    ℚ × Option SendRes :=
  match env.tick with
  | none => (vol, none)
  | some t =>
    let vol' := s.normalize_volume vol
    let price := s.normalize_price t.ask
    (vol', env.send (.closeSell ticket vol' price))

/-- `GridStrategy._move_sell_sl_to_breakeven`: for a profitable short,
move its stop-loss to entry plus `be_buffer_points`, never loosening an
existing tighter (lower) stop.  The caller ignores the result, so only
the sent request is recorded. -/
def move_sell_sl_to_breakeven (s : GridStrategy) (env : Env) (pos : Position) :
    List Action :=
  match env.tick with
  | none => []
  | some t =>
    if pos.price_open ≤ t.ask then []
    else
      let sl := s.normalize_price (pos.price_open + (s.be_buffer_points : ℚ) * s.info.point)
      if pos.sl ≠ 0 ∧ pos.sl ≤ sl then []
      else [.moveSL pos.ticket sl]

/-- `GridStrategy.clear_old_orders`: cancel every order of this magic in
the fresh `orders_get(symbol=...)` response; a market-closed result
(10018) pauses for 300 s and stops the sweep. -/
def clear_old_orders_go (s : GridStrategy) (env : Env) :
    List Order → GridStrategy × List Action
  | [] => (s, [])
  | o :: rest =>
    if o.magic = s.magic then
      match env.send (.removeOrder o.ticket) with
      | some r =>
        if r.retcode = 10018 then
          ({ s with pause_until := env.now + 300 }, [.cancel o.ticket])
        else
          let (s', acts) := clear_old_orders_go s env rest
          (s', .cancel o.ticket :: acts)
      | none =>
        let (s', acts) := clear_old_orders_go s env rest
        (s', .cancel o.ticket :: acts)
    else clear_old_orders_go s env rest

def clear_old_orders (s : GridStrategy) (env : Env) : GridStrategy × List Action :=
  clear_old_orders_go s env env.symOrders

/-- `GridStrategy._calc_exposure`: long/short position volume, pending
buy/sell volume, and net volume
`(long+pendingBuy) - (short+pendingSell)`. -/
def calc_exposure (my_positions : List Position) (my_orders : List Order) :
    ℚ × ℚ × ℚ × ℚ × ℚ :=
  let long_vol := qSum ((my_positions.filter
    (fun p => if p.kind = PosKind.posBuy then true else false)).map (fun p => p.volume))
  let short_vol := qSum ((my_positions.filter
    (fun p => if p.kind = PosKind.posSell then true else false)).map (fun p => p.volume))
  let pending_buy_vol := qSum ((my_orders.filter
    (fun o => if o.kind = OrderKind.buyLimit then true else false)).map (fun o => o.volume_current))
  let pending_sell_vol := qSum ((my_orders.filter
    (fun o => if o.kind = OrderKind.sellLimit then true else false)).map (fun o => o.volume_current))
  let net_vol := (long_vol + pending_buy_vol) - (short_vol + pending_sell_vol)
  (long_vol, short_vol, pending_buy_vol, pending_sell_vol, net_vol)

/-- The buy-side level walk of `update` step 2: `for i in range(0, n)`,
`level = normalize(anchor - i*step)`, kept when `level < ask` and
`level ≥ min_price`. -/
def buy_levels (s : GridStrategy) (anchor ask : ℚ) : ℕ → ℕ → List ℚ
  | _, 0 => []
  | i, n + 1 =>
    let level := s.normalize_price (anchor - (i : ℚ) * s.step)
    (if level < ask ∧ s.min_price ≤ level then [level] else []) ++
      buy_levels s anchor ask (i + 1) n

/-- The sell-side level walk: `level = normalize(anchor + i*step)`, kept
when `level > bid` and `level ≤ max_price`. -/
def sell_levels (s : GridStrategy) (anchor bid : ℚ) : ℕ → ℕ → List ℚ
  | _, 0 => []
  | i, n + 1 =>
    let level := s.normalize_price (anchor + (i : ℚ) * s.step)
    (if bid < level ∧ level ≤ s.max_price then [level] else []) ++
      sell_levels s anchor bid (i + 1) n

/-- `target_buys` of an `update` pass: generated only when the mid price
is inside `[min_p, max_p]` and the mode allows buys, walked over
`buy_window + recenter_steps + 5` levels, truncated to `buy_window`. -/
def target_buys (s : GridStrategy) (tick : Tick) (mid : ℚ) : List ℚ :=
  if s.min_price ≤ mid ∧ mid ≤ s.max_price then
    if s.mode = "neutral" ∨ s.mode = "long" then
      (buy_levels s (s.anchor.getD 0) tick.ask 0
        ((s.buy_window : ℤ) + s.recenter_steps + 5).toNat).take s.buy_window
    else []
  else []

/-- `target_sells` of an `update` pass: like `target_buys` but walked
upward, truncated to `sell_window`, then sorted descending
(`sort(reverse=True)`). -/
def target_sells (s : GridStrategy) (tick : Tick) (mid : ℚ) : List ℚ :=
  if s.min_price ≤ mid ∧ mid ≤ s.max_price then
    if s.mode = "neutral" ∨ s.mode = "short" then
      pySortDesc ((sell_levels s (s.anchor.getD 0) tick.bid 0
        ((s.sell_window : ℤ) + s.recenter_steps + 5).toNat).take s.sell_window)
    else []
  else []

/-- The TRIM step: cancel every live limit order whose normalized price
is not in the target set or whose side is disallowed by the mode. -/
def trim_cancels (s : GridStrategy) (targets : List ℚ) (my_orders : List Order) :
    List Action :=
  my_orders.filterMap (fun o =>
    if o.kind = OrderKind.buyLimit ∨ o.kind = OrderKind.sellLimit then
      let op := s.normalize_price o.price_open
      if qElem op targets = false ∨ (o.kind = OrderKind.buyLimit ∧ s.mode = "short")
          ∨ (o.kind = OrderKind.sellLimit ∧ s.mode = "long") then
        some (Action.cancel o.ticket)
      else none
    else none)

/-- Is any held-position price within `tol` of `price`?
(the fill step's duplicate-position check). -/
def near_any (prices : List ℚ) (price tol : ℚ) : Bool :=
  match prices with
  | [] => false
  | p :: rest => if pyAbs (p - price) < tol then true else near_any rest price tol

end GridStrategy

/-- Running state of the fill loops: the (possibly error-mutated)
strategy, the shared `placed_count`, the locally updated `net_vol`, the
accumulated actions, and whether the loop has executed `break`. -/
structure FillState where
  s : GridStrategy
  placed : ℕ
  net : ℚ
  acts : List Action
  stopped : Bool

namespace GridStrategy

/-- The buy fill loop of `update`: walk the target buy levels; stop at
the per-pass cap or on the first gate denial; skip covered/near levels;
otherwise place, counting a placement when the returned ticket is
truthy.  `lv sv pb ps` are the exposure numbers frozen before the loops;
only `net` is updated locally. -/
def fill_buys (env : Env) (existing pos_prices : List ℚ)
    (min_dist ask : ℚ) (lv sv pb ps : ℚ) :
    List ℚ → FillState → FillState
  | [], st => st
  | price :: rest, st =>
    if st.stopped then st
    else if st.s.max_new_orders_per_update ≤ st.placed then { st with stopped := true }
    else if qElem price existing then
      fill_buys env existing pos_prices min_dist ask lv sv pb ps rest st
    else if pyAbs (price - ask) < min_dist then
      fill_buys env existing pos_prices min_dist ask lv sv pb ps rest st
    else if near_any pos_prices price (st.s.step * (1/10)) then
      fill_buys env existing pos_prices min_dist ask lv sv pb ps rest st
    else if st.s.allow_side "buy" lv sv pb ps st.net = false then
      { st with stopped := true }
    else
      let r := st.s.place_buy_order env price
      let counted : Bool := match r.2.1 with
        | some t => if t = 0 then false else true
        | none => false
      fill_buys env existing pos_prices min_dist ask lv sv pb ps rest
        { s := r.1
          placed := if counted then st.placed + 1 else st.placed
          net := if counted then st.net + st.s.lot else st.net
          acts := st.acts ++ r.2.2
          stopped := false }

/-- The sell fill loop, mirror of `fill_buys` (reference price is the
bid; a counted placement decreases `net`). -/
def fill_sells (env : Env) (existing pos_prices : List ℚ)
    (min_dist bid : ℚ) (lv sv pb ps : ℚ) :
    List ℚ → FillState → FillState
  | [], st => st
  | price :: rest, st =>
    if st.stopped then st
    else if st.s.max_new_orders_per_update ≤ st.placed then { st with stopped := true }
    else if qElem price existing then
      fill_sells env existing pos_prices min_dist bid lv sv pb ps rest st
    else if pyAbs (price - bid) < min_dist then
      fill_sells env existing pos_prices min_dist bid lv sv pb ps rest st
    else if near_any pos_prices price (st.s.step * (1/10)) then
      fill_sells env existing pos_prices min_dist bid lv sv pb ps rest st
    else if st.s.allow_side "sell" lv sv pb ps st.net = false then
      { st with stopped := true }
    else
      let r := st.s.place_sell_order env price
      let counted : Bool := match r.2.1 with
        | some t => if t = 0 then false else true
        | none => false
      fill_sells env existing pos_prices min_dist bid lv sv pb ps rest
        { s := r.1
          placed := if counted then st.placed + 1 else st.placed
          net := if counted then st.net - st.s.lot else st.net
          acts := st.acts ++ r.2.2
          stopped := false }

/-- The ATR step-adjustment branch of `update`: when the smoothed ATR is
truthy and the candidate step differs relatively by more than
`atr_change_threshold`, set `step` to the candidate clamped to
`[base_step*min_step_mult, base_step*max_step_mult]`. -/
def atr_apply_step (s : GridStrategy) (atr : Option ℚ) : GridStrategy :=
  match atr with
  | none => s
  | some v =>
    if v = 0 then s
    else
      let new_step := pyRoundTo (v * s.atr_factor) 5
      if s.atr_change_threshold < pyAbs (new_step - s.step) / s.step then
        { s with
            step := pyMax (s.base_step * s.min_step_mult)
              (pyMin (s.base_step * s.max_step_mult) new_step) }
      else s

/-- The first position with the smallest ticket
(`sorted(short_pos, key=lambda p: p.ticket)[0]`). -/
def min_by_ticket : List Position → Option Position
  | [] => none
  | p :: rest =>
    match min_by_ticket rest with
    | none => some p
    | some q => if p.ticket ≤ q.ticket then some p else some q

/-- Step (C) of the hedge manager: the tranche entry.  `s1` is the
strategy after the rates-cache access; the volumes, `cap`, `tranche`,
`gross` and `mid` are the values computed by the enclosing block. -/
def hedge_entry (s1 : GridStrategy) (env : Env) (gate_ok : Bool)
    (mid cap hedge_target tranche gross net_vol short_vol : ℚ) :
    GridStrategy × List Action :=
  if cap ≤ net_vol ∧ short_vol < hedge_target then
    if gate_ok = true ∧ s1.hedge_cooldown ≤ env.now - s1.last_hedge_time then
      let ok_move : Bool := match s1.last_hedge_entry_price with
        | none => true
        | some p =>
          if mid ≤ p - (s1.hedge_entry_steps : ℚ) * s1.step then true else false
      if ok_move = true then
        let vol_to_add := pyMin tranche (hedge_target - short_vol)
        let gross_ok : Bool := match s1.max_gross_vol with
          | none => true
          | some mg => if gross + vol_to_add ≤ mg then true else false
        if gross_ok = true then
          let r := s1.open_hedge_sell env vol_to_add
          match r.2 with
          | some res =>
            if res.retcode = 10009 ∨ res.retcode = 10008 then
              ({ s1 with last_hedge_time := env.now,
                         last_hedge_entry_price := some mid }, [Action.hedgeOpen r.1])
            else (s1, [])
          | none => (s1, [])
        else (s1, [])
      else (s1, [])
    else (s1, [])
  else (s1, [])

/-- Step (D) of the hedge manager: the tranche exit.  `s2` is the
strategy after the entry step (so `rebound` and the cooldown see a
just-made entry). -/
def hedge_exit (s2 : GridStrategy) (env : Env)
    (mid cap tranche net_vol short_vol : ℚ) (short_pos : List Position) :
    GridStrategy × List Action :=
  let safe_net := cap * (1 - s2.hedge_fraction)
  let rebound : Bool := match s2.last_hedge_entry_price with
    | none => false
    | some p =>
      if p + (s2.hedge_exit_steps : ℚ) * s2.step ≤ mid then true else false
  if 0 < short_vol ∧ s2.hedge_cooldown ≤ env.now - s2.last_hedge_time then
    if rebound = true ∨ net_vol ≤ safe_net then
      match min_by_ticket short_pos with
      | none => (s2, [])
      | some pos =>
        let vol_to_close := pyMin tranche pos.volume
        let r := s2.close_sell_position env pos.ticket vol_to_close
        match r.2 with
        | some res =>
          if res.retcode = 10009 ∨ res.retcode = 10008 then
            ({ s2 with last_hedge_time := env.now }, [Action.hedgeClose pos.ticket r.1])
          else (s2, [])
        | none => (s2, [])
    else (s2, [])
  else (s2, [])

/-- The HEDGE MANAGER block of `update` (entered only when
`hedge_enabled ∧ mode = "long" ∧ max_net_vol` is configured):
(A) break-even stops for profitable shorts, (B) volatility/volume gates
over cached M1 bars, (C) tranche entry, (D) tranche exit. -/
def hedge_manager (s : GridStrategy) (env : Env) (tick : Tick)
    (my_positions : List Position) : GridStrategy × List Action :=
  let short_pos := my_positions.filter
    (fun p => if p.kind = PosKind.posSell then true else false)
  let long_vol := qSum ((my_positions.filter
    (fun p => if p.kind = PosKind.posBuy then true else false)).map (fun p => p.volume))
  let short_vol := qSum (short_pos.map (fun p => p.volume))
  let net_vol := long_vol - short_vol
  let cap := s.max_net_vol.getD 0
  let hedge_target := cap * s.hedge_fraction
  let tranche := hedge_target / ((if s.hedge_tranches < 1 then 1 else s.hedge_tranches : ℤ) : ℚ)
  let gross := long_vol + short_vol
  let mid := (tick.bid + tick.ask) / 2
  -- (A) break-even first (the max_gross pre-check block in the source is `pass`)
  let be_trigger := (s.be_trigger_steps : ℚ) * s.step
  let beActs := (short_pos.map (fun p =>
    if be_trigger ≤ p.price_open - tick.ask then s.move_sell_sl_to_breakeven env p
    else [])).flatten
  -- (B) entry gates
  let m1 := s.get_m1_rates_cached env
  let s1 := m1.1
  let gate_ok : Bool := match m1.2 with
    | none => false
    | some r => s1.volatility_gate r && s1.volume_gate r
  -- (C) tranche entry
  let entry := hedge_entry s1 env gate_ok mid cap hedge_target tranche gross net_vol short_vol
  -- (D) tranche exit
  let exitr := hedge_exit entry.1 env mid cap tranche net_vol short_vol short_pos
  (exitr.1, beActs ++ entry.2 ++ exitr.2)

/-- Steps 2–3 of the reconciliation pass (target grid generation, TRIM,
and the two fill loops), acting on the strategy state `s4` reached after
the anchor and hedge steps. -/
def maintain_orders (s4 : GridStrategy) (env : Env) (tick : Tick)
    (my_orders : List Order) (my_positions : List Position) (mid : ℚ) :
    GridStrategy × List Action :=
  let tb := s4.target_buys tick mid
  let ts := s4.target_sells tick mid
  let trimActs := s4.trim_cancels (tb ++ ts) my_orders
  let e := calc_exposure my_positions my_orders
  let existing_buys := (my_orders.filter (fun o =>
    if o.kind = OrderKind.buyLimit then true else false)).map
      (fun o => s4.normalize_price o.price_open)
  let existing_sells := (my_orders.filter (fun o =>
    if o.kind = OrderKind.sellLimit then true else false)).map
      (fun o => s4.normalize_price o.price_open)
  let pos_prices := my_positions.map (fun p => s4.normalize_price p.price_open)
  let min_dist := pyMax s4.info.stop_level (s4.info.point * 10)
  let stB := fill_buys env existing_buys pos_prices min_dist tick.ask
    e.1 e.2.1 e.2.2.1 e.2.2.2.1 tb
    { s := s4, placed := 0, net := e.2.2.2.2, acts := [], stopped := false }
  let stS := fill_sells env existing_sells pos_prices min_dist tick.bid
    e.1 e.2.1 e.2.2.1 e.2.2.2.1 ts
    { stB with stopped := false }
  (stS.s, trimActs ++ stS.acts)

/-- `GridStrategy.update`, the full reconciliation pass, for the runner's
calling convention (order/position lists always supplied).  Returns the
mutated strategy and the market actions of the pass. -/
def update (s : GridStrategy) (env : Env)
    (orders_list : List Order) (positions_list : List Position) :
    GridStrategy × List Action :=
  if s.enabled = false then (s, [])
  else if env.now < s.pause_until then (s, [])
  else
    match env.tick with
    | none => ({ s with pause_until := env.now + 5 }, [])
    | some tick =>
      if tick.bid ≤ 0 then ({ s with pause_until := env.now + 5 }, [])
      else if 600 < pyAbs (env.now - tick.time) then (s, [])
      else
        let fuse : Bool := match s.max_spread_points with
          | none => false
          | some msp => if msp * s.info.point < tick.ask - tick.bid then true else false
        if fuse = true then ({ s with pause_until := env.now + s.extreme_cooldown }, [])
        else
          -- ATR adaptive step
          let sAtr :=
            if s.use_atr = true then
              let a := s.calculate_atr env
              atr_apply_step a.1 a.2
            else s
          let mid := (tick.bid + tick.ask) / 2
          if (mid < sAtr.min_price ∨ sAtr.max_price < mid) ∧
              sAtr.out_of_range_action = "stop" then
            let c := clear_old_orders { sAtr with enabled := false } env
            (c.1, c.2)
          else if (mid < sAtr.min_price ∨ sAtr.max_price < mid) ∧
              sAtr.out_of_range_action = "freeze" then
            (sAtr, [])
          else
            let my_orders := orders_list.filter (fun o =>
              if o.magic = sAtr.magic ∧ o.symbol = sAtr.symbol then true else false)
            let my_positions := positions_list.filter (fun p =>
              if p.symbol = sAtr.symbol ∧ p.magic = sAtr.magic then true else false)
            let s3 := (sAtr.init_anchor_if_needed mid).maybe_recenter mid env.now |>.1
            let hedged :=
              if s3.hedge_enabled = true ∧ s3.mode = "long" ∧ s3.max_net_vol ≠ none then
                s3.hedge_manager env tick my_positions
              else (s3, [])
            let m := maintain_orders hedged.1 env tick my_orders my_positions mid
            (m.1, hedged.2 ++ m.2)

end GridStrategy

/-! ### StrategyManager config updates (`strategy_manager.py`) -/

/-- The runtime snapshot captured by `GridStrategy.get_state` — exactly
the keys of the Python dict. -/
structure StratState where
  pause_until : ℚ
  enabled : Bool
  last_atr_value : Option ℚ
  last_tick_time : ℚ
  last_atr_time : ℚ
  anchor : Option ℚ
  last_recenter_time : ℚ
  last_hedge_time : ℚ
  last_hedge_entry_price : Option ℚ

/-- `GridStrategy.get_state`. -/
def GridStrategy.get_state (s : GridStrategy) : StratState :=
  { pause_until := s.pause_until
    enabled := s.enabled
    last_atr_value := s.last_atr_value
    last_tick_time := s.last_tick_time
    last_atr_time := s.last_atr_time
    anchor := s.anchor
    last_recenter_time := s.last_recenter_time
    last_hedge_time := s.last_hedge_time
    last_hedge_entry_price := s.last_hedge_entry_price }

/-- `GridStrategy.set_state` on a snapshot produced by `get_state` (all
keys present, the dict is truthy).  The source coerces the hedge time
with `float(x or 0.0)`, collapsing a falsy stored value to `0.0`. -/
def GridStrategy.set_state (s : GridStrategy) (st : StratState) : GridStrategy :=
  { s with
      pause_until := st.pause_until
      enabled := st.enabled
      last_atr_value := st.last_atr_value
      last_tick_time := st.last_tick_time
      last_atr_time := st.last_atr_time
      anchor := st.anchor
      last_recenter_time := st.last_recenter_time
      last_hedge_time := if st.last_hedge_time = 0 then 0 else st.last_hedge_time
      last_hedge_entry_price := st.last_hedge_entry_price }

/-- A config dict for `StrategyManager._update_strategy`: `none` models
an absent key (so `cfg.get(key, current)` keeps the current value).
Fields whose strategy attribute is itself optional are doubly optional:
the key may be absent, or present with a null/non-null value. -/
structure Cfg where
  symbol : Option String := none
  enabled : Option Bool := none
  step : Option ℚ := none
  tp_dist : Option ℚ := none
  lot : Option ℚ := none
  window : Option ℕ := none
  min_p : Option ℚ := none
  max_p : Option ℚ := none
  use_atr : Option Bool := none
  atr_period : Option ℕ := none
  atr_factor : Option ℚ := none
  mode : Option String := none
  out_of_range_action : Option String := none
  buy_window : Option ℕ := none
  sell_window : Option ℕ := none
  recenter_steps : Option ℤ := none
  recenter_cooldown : Option ℚ := none
  max_long_pos : Option (Option ℤ) := none
  max_short_pos : Option (Option ℤ) := none
  max_long_vol : Option (Option ℚ) := none
  max_short_vol : Option (Option ℚ) := none
  max_net_vol : Option (Option ℚ) := none
  max_spread_points : Option (Option ℚ) := none
  extreme_mode : Option String := none
  extreme_cooldown : Option ℚ := none
  max_new_orders_per_update : Option ℕ := none
  hedge_enabled : Option Bool := none
  hedge_fraction : Option ℚ := none
  hedge_tranches : Option ℤ := none
  hedge_entry_steps : Option ℤ := none
  hedge_exit_steps : Option ℤ := none
  hedge_cooldown : Option ℚ := none
  max_gross_vol : Option (Option ℚ) := none
  hedge_vol_lookback : Option ℕ := none
  hedge_vol_window : Option ℕ := none
  hedge_vol_quantile : Option ℚ := none
  hedge_vol_base : Option ℕ := none
  hedge_vol_mult : Option ℚ := none
  be_trigger_steps : Option ℤ := none
  be_buffer_points : Option ℤ := none

/-- `StrategyManager._update_strategy`: capture the runtime state, apply
the field-by-field config update (including the symbol change branch),
then restore the captured state. -/
def update_strategy (s : GridStrategy) (cfg : Cfg) : GridStrategy :=
  let st := s.get_state
  let s1 := { s with symbol := cfg.symbol.getD s.symbol }
  let s2 :=
    { s1 with
        enabled := cfg.enabled.getD s1.enabled
        step := cfg.step.getD s1.step
        tp_dist := cfg.tp_dist.getD s1.tp_dist
        lot := cfg.lot.getD s1.lot
        window := cfg.window.getD s1.window
        min_price := cfg.min_p.getD s1.min_price
        max_price := cfg.max_p.getD s1.max_price
        use_atr := cfg.use_atr.getD s1.use_atr
        atr_period := cfg.atr_period.getD s1.atr_period
        atr_factor := cfg.atr_factor.getD s1.atr_factor
        mode := cfg.mode.getD s1.mode
        out_of_range_action := cfg.out_of_range_action.getD s1.out_of_range_action
        buy_window := cfg.buy_window.getD s1.buy_window
        sell_window := cfg.sell_window.getD s1.sell_window
        recenter_steps := cfg.recenter_steps.getD s1.recenter_steps
        recenter_cooldown := cfg.recenter_cooldown.getD s1.recenter_cooldown
        max_long_pos := cfg.max_long_pos.getD s1.max_long_pos
        max_short_pos := cfg.max_short_pos.getD s1.max_short_pos
        max_long_vol := cfg.max_long_vol.getD s1.max_long_vol
        max_short_vol := cfg.max_short_vol.getD s1.max_short_vol
        max_net_vol := cfg.max_net_vol.getD s1.max_net_vol
        max_spread_points := cfg.max_spread_points.getD s1.max_spread_points
        extreme_mode := cfg.extreme_mode.getD s1.extreme_mode
        extreme_cooldown := cfg.extreme_cooldown.getD s1.extreme_cooldown
        max_new_orders_per_update :=
          cfg.max_new_orders_per_update.getD s1.max_new_orders_per_update
        hedge_enabled := cfg.hedge_enabled.getD s1.hedge_enabled
        hedge_fraction := cfg.hedge_fraction.getD s1.hedge_fraction
        hedge_tranches := cfg.hedge_tranches.getD s1.hedge_tranches
        hedge_entry_steps := cfg.hedge_entry_steps.getD s1.hedge_entry_steps
        hedge_exit_steps := cfg.hedge_exit_steps.getD s1.hedge_exit_steps
        hedge_cooldown := cfg.hedge_cooldown.getD s1.hedge_cooldown
        max_gross_vol := cfg.max_gross_vol.getD s1.max_gross_vol
        hedge_vol_lookback := cfg.hedge_vol_lookback.getD s1.hedge_vol_lookback
        hedge_vol_window := cfg.hedge_vol_window.getD s1.hedge_vol_window
        hedge_vol_quantile := cfg.hedge_vol_quantile.getD s1.hedge_vol_quantile
        hedge_vol_base := cfg.hedge_vol_base.getD s1.hedge_vol_base
        hedge_vol_mult := cfg.hedge_vol_mult.getD s1.hedge_vol_mult
        be_trigger_steps := cfg.be_trigger_steps.getD s1.be_trigger_steps
        be_buffer_points := cfg.be_buffer_points.getD s1.be_buffer_points }
  s2.set_state st


/-! ### Trace and counting helpers -/

/-- Run `_maybe_recenter` over a sequence of `(now, mid)` events,
collecting the times at which a recenter fired. -/
def recenter_trace (s : GridStrategy) : List (ℚ × ℚ) → List ℚ
  | [] => []
  | e :: rest =>
    let r := s.maybe_recenter e.2 e.1
    (if r.2 then [e.1] else []) ++ recenter_trace r.1 rest

/-- Number of successful pending-limit placements in an action list. -/
def countPlaces : List Action → ℕ
  | [] => 0
  | a :: rest =>
    (match a with
      | .placeBuy _ => 1
      | .placeSell _ => 1
      | _ => 0) + countPlaces rest

/-- Number of cancel requests in an action list. -/
def countCancels : List Action → ℕ
  | [] => 0
  | a :: rest =>
    (match a with
      | .cancel _ => 1
      | _ => 0) + countCancels rest

/-! ### Concrete fixtures for scenario theorems -/

/-- C2 scenario strategy: step 200, windows 2, anchor unset. -/
def gridS2 : GridStrategy :=
  { GridStrategy.init "BTCUSD" 200 200 (1/100) 7 defaultInfo with
      buy_window := 2, sell_window := 2 }

/-- C2 scenario tick: zero spread at mid 50000. -/
def gridTick2 : Tick := ⟨50000, 50000, 1000⟩

/-- C2 scenario environment: `order_send` always returns `None`. -/
def gridEnv2 : Env :=
  { now := 1000, tick := some gridTick2, m15Rates := none, m1Rates := none
    symOrders := [], send := fun _ => none }

/-- C5 scenario: neutral mode, cap 1, lot 1, one buy and one sell target. -/
def gateS5 : GridStrategy :=
  { GridStrategy.init "BTCUSD" 200 200 1 77 defaultInfo with
      buy_window := 1, sell_window := 1, max_net_vol := some 1 }

/-- C5 environment: pending placements succeed. -/
def gateEnv5 : Env :=
  { now := 1000, tick := some ⟨50000, 50000, 1000⟩, m15Rates := none
    m1Rates := none, symOrders := []
    send := fun r =>
      match r with
      | .pendingSell _ _ _ _ => some ⟨10009, 5⟩
      | .pendingBuy _ _ _ _ => some ⟨10009, 6⟩
      | _ => none }

/-- C5 book: one long position of volume 1 away from the grid levels. -/
def gatePos5 : Position :=
  { ticket := 1, kind := .posBuy, price_open := 50500, volume := 1
    magic := 77, symbol := "BTCUSD", profit := 0, sl := 0, tp := 0 }

/-- C5: `gateS5` as the pass sees it after anchor initialization at
mid 50000 (no recenter fires on the first pass). -/
def gateS5A : GridStrategy :=
  ((gateS5.init_anchor_if_needed 50000).maybe_recenter 50000 1000).1

/-- C9 scenario (same shape as C5, separate instance): neutral mode,
cap 1, lot 1. -/
def idemS9 : GridStrategy :=
  { GridStrategy.init "ETHUSD" 200 200 1 78 defaultInfo with
      buy_window := 1, sell_window := 1, max_net_vol := some 1 }

/-- C9 environment. -/
def idemEnv9 : Env :=
  { now := 2000, tick := some ⟨60000, 60000, 2000⟩, m15Rates := none
    m1Rates := none, symOrders := []
    send := fun r =>
      match r with
      | .pendingSell _ _ _ _ => some ⟨10009, 15⟩
      | .pendingBuy _ _ _ _ => some ⟨10009, 16⟩
      | _ => none }

/-- C9 book: one long position of volume 1. -/
def idemPos9 : Position :=
  { ticket := 2, kind := .posBuy, price_open := 60500, volume := 1
    magic := 78, symbol := "ETHUSD", profit := 0, sl := 0, tp := 0 }

/-- C6 scenario: long-mode hedging with a tiny `hedge_fraction`, gates
configured to pass on constant bars, grid windows empty. -/
def hedgeS6 : GridStrategy :=
  { GridStrategy.init "BTCUSD" 200 200 1 77 defaultInfo with
      mode := "long", hedge_enabled := true, max_net_vol := some 1
      hedge_fraction := 3/1000, hedge_tranches := 1
      hedge_vol_lookback := 11, hedge_vol_window := 1, hedge_vol_base := 1
      hedge_vol_mult := 1, buy_window := 0, sell_window := 0 }

/-- C6: one constant M1 bar, replicated. -/
def hedgeBar6 : Bar := { high := 10, low := 0, close := 5, tick_volume := 100 }

/-- C6 environment: 315 constant bars, hedge market order succeeds. -/
def hedgeEnv6 : Env :=
  { now := 1000, tick := some ⟨50000, 50000, 1000⟩, m15Rates := none
    m1Rates := some (List.replicate 315 hedgeBar6), symOrders := []
    send := fun r =>
      match r with
      | .hedgeSell _ _ => some ⟨10009, 9⟩
      | _ => none }

/-- C6 book: one long position of volume 1 (net = cap). -/
def hedgePos6 : Position :=
  { ticket := 1, kind := .posBuy, price_open := 50500, volume := 1
    magic := 77, symbol := "BTCUSD", profit := 0, sl := 0, tp := 0 }

/-- C3 witness fixture: a strategy paused until t=500. -/
def errS3 : GridStrategy :=
  { GridStrategy.init "BTCUSD" 200 200 (1/100) 9 defaultInfo with
      pause_until := 500 }

/-- C3 witness environment: clock at t=100, inside the pause. -/
def errEnv3 : Env :=
  { now := 100, tick := none, m15Rates := none, m1Rates := none
    symOrders := [], send := fun _ => none }

/-- C10 witness fixture: a config dict that sets `step` to 7. -/
def cfg10 : Cfg := { step := some 7 }

/-- A strategy state that short-circuits the next pass at time `now`:
disabled, or paused strictly beyond `now` (every error pause is
`now + c` with `c ≥ 1`). -/
def Shortcut (now : ℚ) (s : GridStrategy) : Prop :=
  s.enabled = false ∨ ∃ c : ℚ, 1 ≤ c ∧ s.pause_until = now + c

/-- C9 witness environment: no tick. -/
def idemEnv9n : Env :=
  { now := 2000, tick := none, m15Rates := none, m1Rates := none
    symOrders := [], send := fun _ => none }

/-! ## Theorems -/

theorem pyAbs_eq_abs (q : ℚ) : pyAbs q = |q| := by
  unfold pyAbs
  rcases lt_or_ge q 0 with h | h
  · simp [h, abs_of_neg h]
  · simp [not_lt.mpr h, abs_of_nonneg h]

theorem pyMax_eq_max (a b : ℚ) : pyMax a b = max a b := by
  unfold pyMax
  rcases lt_or_ge a b with h | h
  · simp [h, max_eq_right h.le]
  · simp [not_lt.mpr h, max_eq_left h]

theorem pyMin_eq_min (a b : ℚ) : pyMin a b = min a b := by
  unfold pyMin
  rcases lt_or_ge b a with h | h
  · simp [h, min_eq_right h.le]
  · simp [not_lt.mpr h, min_eq_left h]

theorem qElem_iff_mem (x : ℚ) (l : List ℚ) : qElem x l = true ↔ x ∈ l := by
  induction l with
  | nil => simp [qElem]
  | cons y ys ih =>
      by_cases h : x = y <;> simp [qElem, h, ih]

/-- C1: `GridStrategy._allow_side` implements exactly the spec's per-mode
risk rule: no cap ⇒ always allow; mode=neutral: buy iff `|net+lot| ≤ cap`,
sell iff `|net-lot| ≤ cap`; mode=long: buy iff
`long+pendingBuy+lot ≤ cap`, sell always; mode=short: sell iff
`short+pendingSell+lot ≤ cap`, buy always — for every combination of
volumes, lot and cap. -/
theorem allow_side_implements_spec (s : GridStrategy)
    (side : String) (hside : side = "buy" ∨ side = "sell")
    (hmode : s.mode = "neutral" ∨ s.mode = "long" ∨ s.mode = "short")
    (lv sv pb ps nv : ℚ) :
    s.allow_side side lv sv pb ps nv =
      specRiskAllow s.mode s.max_net_vol s.lot side lv sv pb ps nv := by
  unfold GridStrategy.allow_side specRiskAllow
  rcases hside with h | h <;>
    rcases hmode with hm | hm | hm <;>
      simp [h, hm, pyAbs_eq_abs]

/-- Witness for C1 at a concrete input: the spec's own scenario —
mode=neutral, cap=0.1, lot=0.05, net=0.08 (buy denied, sell allowed). -/
theorem allow_side_implements_spec_witness :
    ({ GridStrategy.init "BTCUSD" 200 200 (1/20) 1 defaultInfo with
        max_net_vol := some (1/10) }.allow_side "buy" 0 0 0 0 (2/25) =
      specRiskAllow "neutral" (some (1/10)) (1/20) "buy" 0 0 0 0 (2/25)) ∧
    { GridStrategy.init "BTCUSD" 200 200 (1/20) 1 defaultInfo with
        max_net_vol := some (1/10) }.allow_side "buy" 0 0 0 0 (2/25) = false :=
  ⟨allow_side_implements_spec _ "buy" (Or.inl rfl) (Or.inl rfl) 0 0 0 0 (2/25),
   by norm_num [GridStrategy.allow_side, GridStrategy.init, pyAbs]⟩

/-- C8: applying a config update to a live engine preserves its runtime
state: `pause_until`, `enabled`, `anchor`, the cached ATR value and
timestamps, the last recenter time, and the last hedge time/entry price
all equal their pre-update values, for every config dict. -/
theorem update_strategy_preserves_runtime (s : GridStrategy) (cfg : Cfg) :
    (update_strategy s cfg).pause_until = s.pause_until ∧
    (update_strategy s cfg).enabled = s.enabled ∧
    (update_strategy s cfg).anchor = s.anchor ∧
    (update_strategy s cfg).last_atr_value = s.last_atr_value ∧
    (update_strategy s cfg).last_atr_time = s.last_atr_time ∧
    (update_strategy s cfg).last_tick_time = s.last_tick_time ∧
    (update_strategy s cfg).last_recenter_time = s.last_recenter_time ∧
    (update_strategy s cfg).last_hedge_time = s.last_hedge_time ∧
    (update_strategy s cfg).last_hedge_entry_price = s.last_hedge_entry_price := by
  unfold update_strategy GridStrategy.set_state GridStrategy.get_state
  refine ⟨rfl, rfl, rfl, rfl, rfl, rfl, rfl, ?_, rfl⟩
  by_cases h : s.last_hedge_time = 0 <;> simp [h]

/-- C10: `base_step` is set only at construction (`base_step = step`
there) and never changed by a config update; after an update that sets
`step := ns`, the ATR clamp bounds are still
`base_step*min_step_mult` / `base_step*max_step_mult` with the
construction-time `base_step`, not `ns`. -/
theorem base_step_fixed_at_construction
    (sym : String) (st0 tp lot : ℚ) (m : ℤ) (info : SymbolInfo)
    (s : GridStrategy) (cfg : Cfg) (ns : ℚ) (hns : cfg.step = some ns) :
    (GridStrategy.init sym st0 tp lot m info).base_step = st0 ∧
    (GridStrategy.init sym st0 tp lot m info).step = st0 ∧
    (update_strategy s cfg).base_step = s.base_step ∧
    (update_strategy s cfg).step = ns ∧
    (∀ v : ℚ,
      ((update_strategy s cfg).atr_apply_step (some v)).step
          = (update_strategy s cfg).step ∨
      ((update_strategy s cfg).atr_apply_step (some v)).step
          = pyMax (s.base_step * s.min_step_mult)
              (pyMin (s.base_step * s.max_step_mult)
                (pyRoundTo (v * (update_strategy s cfg).atr_factor) 5))) := by
  refine ⟨rfl, rfl, ?_, ?_, ?_⟩
  · unfold update_strategy GridStrategy.set_state GridStrategy.get_state
    rfl
  · unfold update_strategy GridStrategy.set_state GridStrategy.get_state
    simp [hns]
  · intro v
    unfold GridStrategy.atr_apply_step
    by_cases hv : v = 0
    · simp [hv]
    · simp only [hv, if_false]
      split
      · right
        have hb : (update_strategy s cfg).base_step = s.base_step := by
          unfold update_strategy GridStrategy.set_state GridStrategy.get_state
          rfl
        have hmin : (update_strategy s cfg).min_step_mult = s.min_step_mult := by
          unfold update_strategy GridStrategy.set_state GridStrategy.get_state
          rfl
        have hmax : (update_strategy s cfg).max_step_mult = s.max_step_mult := by
          unfold update_strategy GridStrategy.set_state GridStrategy.get_state
          rfl
        simp [hb, hmin, hmax]
      · left
        rfl

theorem base_step_fixed_at_construction_witness :
    cfg10.step = some (7:ℚ) ∧
    (update_strategy (GridStrategy.init "BTCUSD" 200 200 (1/100) 9 defaultInfo)
        cfg10).base_step
      = (GridStrategy.init "BTCUSD" 200 200 (1/100) 9 defaultInfo).base_step ∧
    (update_strategy (GridStrategy.init "BTCUSD" 200 200 (1/100) 9 defaultInfo)
        cfg10).step = 7 := by
  have h := base_step_fixed_at_construction "BTCUSD" 200 200 (1/100) 9
    defaultInfo (GridStrategy.init "BTCUSD" 200 200 (1/100) 9 defaultInfo)
    cfg10 7 rfl
  exact ⟨rfl, h.2.2.1, h.2.2.2.1⟩

/-- C3: the order-error handler maps retcodes deterministically —
10018 pauses 300 s, 10027 disables, 10004 pauses 1 s, 10013/10014
disable, anything else pauses 5 s — and while `now < pause_until` (or
while disabled) `update` is a complete no-op. -/
theorem handle_order_error_spec (s : GridStrategy) (now : ℚ) (env : Env)
    (ol : List Order) (pl : List Position) (c : ℤ) :
    s.handle_order_error now 10018 = { s with pause_until := now + 300 } ∧
    s.handle_order_error now 10027 = { s with enabled := false } ∧
    s.handle_order_error now 10004 = { s with pause_until := now + 1 } ∧
    s.handle_order_error now 10013 = { s with enabled := false } ∧
    s.handle_order_error now 10014 = { s with enabled := false } ∧
    (c ≠ 10018 → c ≠ 10027 → c ≠ 10004 → c ≠ 10013 → c ≠ 10014 →
      s.handle_order_error now c = { s with pause_until := now + 5 }) ∧
    (env.now < s.pause_until → s.update env ol pl = (s, [])) ∧
    (s.enabled = false → s.update env ol pl = (s, [])) := by
  refine ⟨?_, ?_, ?_, ?_, ?_, ?_, ?_, ?_⟩
  · simp [GridStrategy.handle_order_error]
  · simp [GridStrategy.handle_order_error]
  · simp [GridStrategy.handle_order_error]
  · simp [GridStrategy.handle_order_error]
  · simp [GridStrategy.handle_order_error]
  · intro h1 h2 h3 h4 h5
    simp [GridStrategy.handle_order_error, h1, h2, h3, h4, h5]
  · intro hp
    by_cases he : s.enabled = false
    · simp [GridStrategy.update, he]
    · simp [GridStrategy.update, he, hp]
  · intro he
    simp [GridStrategy.update, he]

theorem handle_order_error_spec_witness :
    errS3.handle_order_error 0 10018 = { errS3 with pause_until := 0 + 300 } ∧
    errS3.handle_order_error 0 99 = { errS3 with pause_until := 0 + 5 } ∧
    errS3.update errEnv3 [] [] = (errS3, []) := by
  have h := handle_order_error_spec errS3 0 errEnv3 [] [] 99
  refine ⟨h.1, h.2.2.2.2.2.1 (by decide) (by decide) (by decide) (by decide)
    (by decide), h.2.2.2.2.2.2.1 ?_⟩
  norm_num [errS3, errEnv3, GridStrategy.init]

/-- The `let`-free unfolding of `pyRound`. -/
theorem pyRound_def (q : ℚ) :
    pyRound q =
      if q - (⌊q⌋ : ℚ) < 1/2 then ⌊q⌋
      else if 1/2 < q - (⌊q⌋ : ℚ) then ⌊q⌋ + 1
      else if ⌊q⌋ % 2 = 0 then ⌊q⌋ else ⌊q⌋ + 1 := rfl

/-- `pyRound` is within 1/2 of its argument. -/
theorem pyRound_near (q : ℚ) : |(pyRound q : ℚ) - q| ≤ 1/2 := by
  have h0 : (⌊q⌋ : ℚ) ≤ q := Int.floor_le q
  have h1 : q < (⌊q⌋ : ℚ) + 1 := Int.lt_floor_add_one q
  by_cases hr1 : q - (⌊q⌋ : ℚ) < 1/2
  · rw [pyRound_def, if_pos hr1]
    rw [abs_sub_comm, abs_of_nonneg (by linarith)]
    linarith
  · by_cases hr2 : 1/2 < q - (⌊q⌋ : ℚ)
    · rw [pyRound_def, if_neg hr1, if_pos hr2]
      push_cast
      rw [abs_of_nonneg (by linarith)]
      linarith
    · by_cases hev : ⌊q⌋ % 2 = 0
      · rw [pyRound_def, if_neg hr1, if_neg hr2, if_pos hev]
        rw [abs_sub_comm, abs_of_nonneg (by linarith)]
        linarith
      · rw [pyRound_def, if_neg hr1, if_neg hr2, if_neg hev]
        push_cast
        rw [abs_of_nonneg (by linarith)]
        linarith

/-- A non-firing `_maybe_recenter` leaves the strategy unchanged. -/
theorem maybe_recenter_noop (s : GridStrategy) (mid now : ℚ)
    (h : (s.maybe_recenter mid now).2 = false) :
    (s.maybe_recenter mid now).1 = s := by
  by_cases h1 : now - s.last_recenter_time < s.recenter_cooldown
  · simp [GridStrategy.maybe_recenter, h1]
  · by_cases h2 : pyAbs ((mid - s.anchor.getD 0) / s.step) < (s.recenter_steps : ℚ)
    · simp [GridStrategy.maybe_recenter, h1, h2]
    · simp [GridStrategy.maybe_recenter, h1, h2] at h

/-- A firing `_maybe_recenter` had its cooldown satisfied and resets the
timer to `now`, keeping the cooldown configuration. -/
theorem maybe_recenter_fired (s : GridStrategy) (mid now : ℚ)
    (h : (s.maybe_recenter mid now).2 = true) :
    s.recenter_cooldown ≤ now - s.last_recenter_time ∧
    (s.maybe_recenter mid now).1.last_recenter_time = now ∧
    (s.maybe_recenter mid now).1.recenter_cooldown = s.recenter_cooldown := by
  by_cases h1 : now - s.last_recenter_time < s.recenter_cooldown
  · simp [GridStrategy.maybe_recenter, h1] at h
  · by_cases h2 : pyAbs ((mid - s.anchor.getD 0) / s.step) < (s.recenter_steps : ℚ)
    · simp [GridStrategy.maybe_recenter, h1, h2] at h
    · refine ⟨le_of_not_lt h1, ?_, ?_⟩ <;>
        simp [GridStrategy.maybe_recenter, h1, h2]

/-- Along any event sequence, consecutive recenter firings (with the
initial timer prepended) are separated by at least the cooldown. -/
theorem recenter_trace_chain (c : ℚ) (evs : List (ℚ × ℚ)) :
    ∀ s : GridStrategy, s.recenter_cooldown = c →
      List.Chain' (fun a b => c ≤ b - a)
        (s.last_recenter_time :: recenter_trace s evs) := by
  induction evs with
  | nil => intro s _; simp [recenter_trace]
  | cons e rest ih =>
    intro s hc
    unfold recenter_trace
    rcases hfire : (s.maybe_recenter e.2 e.1).2 with _ | _
    · have hs : (s.maybe_recenter e.2 e.1).1 = s := maybe_recenter_noop s e.2 e.1 hfire
      simpa [hfire, hs] using ih s hc
    · have hf := maybe_recenter_fired s e.2 e.1 hfire
      have hchain := ih (s.maybe_recenter e.2 e.1).1 (by rw [hf.2.2, hc])
      rw [hf.2.1] at hchain
      simp only [hfire, if_true, List.singleton_append]
      exact List.chain'_cons.mpr ⟨by simpa [hc] using hf.1, hchain⟩

/-- C7: within the cooldown `_maybe_recenter` is a no-op; a firing call
requires drift of at least `recenter_steps` step units, moves the anchor
to the normalized grid level nearest `mid` (within `step/2` of it when
`step > 0`), and resets the timer; hence along any price path two
recenter firings are never closer than `recenter_cooldown` seconds. -/
theorem maybe_recenter_spec (s : GridStrategy) (mid now : ℚ)
    (evs : List (ℚ × ℚ)) :
    (now - s.last_recenter_time < s.recenter_cooldown →
      s.maybe_recenter mid now = (s, false)) ∧
    ((s.maybe_recenter mid now).2 = true →
      (s.recenter_steps : ℚ) ≤ pyAbs ((mid - s.anchor.getD 0) / s.step) ∧
      (s.maybe_recenter mid now).1.anchor
        = some (s.normalize_price (s.get_grid_level mid (s.anchor.getD 0))) ∧
      (s.maybe_recenter mid now).1.last_recenter_time = now) ∧
    (0 < s.step → |s.get_grid_level mid (s.anchor.getD 0) - mid| ≤ s.step / 2) ∧
    List.Chain' (fun a b => s.recenter_cooldown ≤ b - a) (recenter_trace s evs) := by
  refine ⟨?_, ?_, ?_, ?_⟩
  · intro h
    unfold GridStrategy.maybe_recenter
    simp [h]
  · intro h
    by_cases h1 : now - s.last_recenter_time < s.recenter_cooldown
    · simp [GridStrategy.maybe_recenter, h1] at h
    · by_cases h2 : pyAbs ((mid - s.anchor.getD 0) / s.step) < (s.recenter_steps : ℚ)
      · simp [GridStrategy.maybe_recenter, h1, h2] at h
      · refine ⟨le_of_not_lt h2, ?_, ?_⟩ <;>
          simp [GridStrategy.maybe_recenter, h1, h2]
  · intro hstep
    unfold GridStrategy.get_grid_level
    rw [if_neg (not_le.mpr hstep)]
    have hne : s.step ≠ 0 := ne_of_gt hstep
    have hnear := pyRound_near ((mid - s.anchor.getD 0) / s.step)
    have key : s.anchor.getD 0 + (pyRound ((mid - s.anchor.getD 0) / s.step) : ℚ) * s.step - mid
        = ((pyRound ((mid - s.anchor.getD 0) / s.step) : ℚ)
            - (mid - s.anchor.getD 0) / s.step) * s.step := by
      field_simp
      ring
    rw [key, abs_mul, abs_of_pos hstep]
    calc |(pyRound ((mid - s.anchor.getD 0) / s.step) : ℚ)
            - (mid - s.anchor.getD 0) / s.step| * s.step
        ≤ (1/2) * s.step := by
          exact mul_le_mul_of_nonneg_right hnear (le_of_lt hstep)
      _ = s.step / 2 := by ring
  · exact (recenter_trace_chain s.recenter_cooldown evs s rfl).tail

/-- Witness for C7 at concrete inputs: with cooldown 30, a call 10 s
after the last recenter is a no-op; the nearest-level bound holds for
step 200. -/
theorem maybe_recenter_spec_witness :
    ({ GridStrategy.init "BTCUSD" 200 200 1 1 defaultInfo with
        last_recenter_time := 100 }.maybe_recenter 50000 110 =
      ({ GridStrategy.init "BTCUSD" 200 200 1 1 defaultInfo with
          last_recenter_time := 100 }, false)) ∧
    (0 : ℚ) < 200 := by
  constructor
  · exact (maybe_recenter_spec _ 50000 110 []).1 (by norm_num [GridStrategy.init])
  · norm_num

theorem countPlaces_append (l1 l2 : List Action) :
    countPlaces (l1 ++ l2) = countPlaces l1 + countPlaces l2 := by
  induction l1 with
  | nil => simp [countPlaces]
  | cons a rest ih => simp [countPlaces, ih, Nat.add_assoc]

theorem countPlaces_trim (s : GridStrategy) (targets : List ℚ)
    (orders : List Order) : countPlaces (s.trim_cancels targets orders) = 0 := by
  induction orders with
  | nil => simp [GridStrategy.trim_cancels, countPlaces]
  | cons o rest ih =>
    unfold GridStrategy.trim_cancels at *
    rw [List.filterMap_cons]
    split
    · exact ih
    · next a heq =>
      have ha : a = Action.cancel o.ticket := by
        by_cases hrem : qElem (s.normalize_price o.price_open) targets = false ∨
            (o.kind = OrderKind.buyLimit ∧ s.mode = "short") ∨
            (o.kind = OrderKind.sellLimit ∧ s.mode = "long")
        · simp [hrem] at heq
          first
          | exact heq.symm
          | exact heq.2.symm
        · simp [hrem] at heq
      simp [ha, countPlaces, ih]

theorem countPlaces_clear_go (s : GridStrategy) (env : Env) (l : List Order) :
    countPlaces (GridStrategy.clear_old_orders_go s env l).2 = 0 := by
  induction l with
  | nil => simp [GridStrategy.clear_old_orders_go, countPlaces]
  | cons o rest ih =>
    unfold GridStrategy.clear_old_orders_go
    split
    · split
      · split
        · simp [countPlaces]
        · simp [countPlaces, ih]
      · simp [countPlaces, ih]
    · exact ih

theorem countPlaces_moveSL (s : GridStrategy) (env : Env) (p : Position) :
    countPlaces (s.move_sell_sl_to_breakeven env p) = 0 := by
  unfold GridStrategy.move_sell_sl_to_breakeven
  split
  · simp [countPlaces]
  · split
    · simp [countPlaces]
    · by_cases h : p.sl ≠ 0 ∧
          p.sl ≤ s.normalize_price (p.price_open + (s.be_buffer_points : ℚ) * s.info.point) <;>
        simp [h, countPlaces]

theorem countPlaces_flatten_zero (L : List (List Action))
    (h : ∀ x ∈ L, countPlaces x = 0) : countPlaces L.flatten = 0 := by
  induction L with
  | nil => simp [countPlaces]
  | cons a rest ih =>
    simp only [List.flatten_cons, countPlaces_append]
    rw [h a (by simp), ih (fun x hx => h x (by simp [hx]))]

/-- Core of the hedge-entry analysis, once the trigger, gate/cooldown
and price-movement conditions are known to hold. -/
theorem hedge_entry_go (s1 : GridStrategy) (env : Env) (g : Bool)
    (mid cap ht tr gr nv sv : ℚ)
    (h1 : cap ≤ nv ∧ sv < ht)
    (h2 : g = true ∧ s1.hedge_cooldown ≤ env.now - s1.last_hedge_time)
    (hmove : (match s1.last_hedge_entry_price with
      | none => true
      | some p =>
        if mid ≤ p - (s1.hedge_entry_steps : ℚ) * s1.step then true
        else false) = true)
    (hmove' : s1.last_hedge_entry_price = none ∨
      ∃ p, s1.last_hedge_entry_price = some p ∧
        mid ≤ p - (s1.hedge_entry_steps : ℚ) * s1.step) :
    GridStrategy.hedge_entry s1 env g mid cap ht tr gr nv sv = (s1, []) ∨
    ((cap ≤ nv ∧ sv < ht) ∧ g = true ∧
      s1.hedge_cooldown ≤ env.now - s1.last_hedge_time ∧
      (s1.last_hedge_entry_price = none ∨
        ∃ p, s1.last_hedge_entry_price = some p ∧
          mid ≤ p - (s1.hedge_entry_steps : ℚ) * s1.step) ∧
      GridStrategy.hedge_entry s1 env g mid cap ht tr gr nv sv
        = ({ s1 with last_hedge_time := env.now,
                     last_hedge_entry_price := some mid },
           [Action.hedgeOpen (s1.normalize_volume (pyMin tr (ht - sv)))])) := by
  unfold GridStrategy.hedge_entry GridStrategy.open_hedge_sell
  dsimp only
  rw [if_pos h1, if_pos h2, if_pos hmove]
  by_cases h4 : (match s1.max_gross_vol with
      | none => true
      | some mg =>
        if gr + pyMin tr (ht - sv) ≤ mg then true else false) = true
  · rw [if_pos h4]
    rcases htk : env.tick with _ | t
    · left
      rfl
    · dsimp only
      rcases hs : env.send (.hedgeSell
          (s1.normalize_volume (pyMin tr (ht - sv)))
          (s1.normalize_price t.bid)) with _ | res
      · left
        rfl
      · dsimp only
        by_cases hok : res.retcode = 10009 ∨ res.retcode = 10008
        · rw [if_pos hok]
          right
          exact ⟨h1, h2.1, h2.2, hmove', rfl⟩
        · rw [if_neg hok]
          left
          rfl
  · rw [if_neg h4]
    left
    rfl

/-- Outcome analysis of the hedge tranche entry: either nothing happens,
or all entry conditions held and the state records the entry with one
`hedgeOpen` action whose volume is the broker-normalized
`min(tranche, target - short)`. -/
theorem hedge_entry_cases (s1 : GridStrategy) (env : Env) (g : Bool)
    (mid cap ht tr gr nv sv : ℚ) :
    GridStrategy.hedge_entry s1 env g mid cap ht tr gr nv sv = (s1, []) ∨
    ((cap ≤ nv ∧ sv < ht) ∧ g = true ∧
      s1.hedge_cooldown ≤ env.now - s1.last_hedge_time ∧
      (s1.last_hedge_entry_price = none ∨
        ∃ p, s1.last_hedge_entry_price = some p ∧
          mid ≤ p - (s1.hedge_entry_steps : ℚ) * s1.step) ∧
      GridStrategy.hedge_entry s1 env g mid cap ht tr gr nv sv
        = ({ s1 with last_hedge_time := env.now,
                     last_hedge_entry_price := some mid },
           [Action.hedgeOpen (s1.normalize_volume (pyMin tr (ht - sv)))])) := by
  by_cases h1 : cap ≤ nv ∧ sv < ht
  · by_cases h2 : g = true ∧ s1.hedge_cooldown ≤ env.now - s1.last_hedge_time
    · rcases hep : s1.last_hedge_entry_price with _ | p
      · have h := hedge_entry_go s1 env g mid cap ht tr gr nv sv h1 h2
          (by rw [hep]) (Or.inl hep)
        rw [hep] at h
        exact h
      · by_cases h3 : mid ≤ p - (s1.hedge_entry_steps : ℚ) * s1.step
        · have h := hedge_entry_go s1 env g mid cap ht tr gr nv sv h1 h2
            (by rw [hep]; dsimp only; rw [if_pos h3]) (Or.inr ⟨p, hep, h3⟩)
          rw [hep] at h
          exact h
        · left
          unfold GridStrategy.hedge_entry
          dsimp only
          rw [if_pos h1, if_pos h2]
          rw [if_neg ?hc]
          case hc =>
            rw [hep]
            dsimp only
            rw [if_neg h3]
            exact Bool.false_ne_true
    · left
      unfold GridStrategy.hedge_entry
      dsimp only
      rw [if_pos h1, if_neg h2]
  · left
    unfold GridStrategy.hedge_entry
    dsimp only
    rw [if_neg h1]

/-- Core of the hedge-exit analysis once the exit trigger is known. -/
theorem hedge_exit_go (s2 : GridStrategy) (env : Env)
    (mid cap tr nv sv : ℚ) (sp : List Position)
    (h1 : 0 < sv ∧ s2.hedge_cooldown ≤ env.now - s2.last_hedge_time)
    (hreb : (match s2.last_hedge_entry_price with
      | none => false
      | some p =>
        if p + (s2.hedge_exit_steps : ℚ) * s2.step ≤ mid then true
        else false) = true ∨ nv ≤ cap * (1 - s2.hedge_fraction)) :
    GridStrategy.hedge_exit s2 env mid cap tr nv sv sp = (s2, []) ∨
    (∃ (pos : Position) (v : ℚ), GridStrategy.hedge_exit s2 env mid cap tr nv sv sp
      = ({ s2 with last_hedge_time := env.now },
         [Action.hedgeClose pos.ticket v])) := by
  unfold GridStrategy.hedge_exit GridStrategy.close_sell_position
  dsimp only
  rw [if_pos h1, if_pos hreb]
  rcases hmb : GridStrategy.min_by_ticket sp with _ | pos
  · left
    rfl
  · dsimp only
    rcases htk : env.tick with _ | t
    · left
      rfl
    · dsimp only
      rcases hs : env.send (.closeSell pos.ticket
          (s2.normalize_volume (pyMin tr pos.volume))
          (s2.normalize_price t.ask)) with _ | res
      · left
        rfl
      · dsimp only
        by_cases hok : res.retcode = 10009 ∨ res.retcode = 10008
        · rw [if_pos hok]
          right
          exact ⟨pos, s2.normalize_volume (pyMin tr pos.volume), rfl⟩
        · rw [if_neg hok]
          left
          rfl

/-- Outcome analysis of the hedge tranche exit: either nothing happens,
or one `hedgeClose` action is emitted and the cooldown timer resets. -/
theorem hedge_exit_cases (s2 : GridStrategy) (env : Env)
    (mid cap tr nv sv : ℚ) (sp : List Position) :
    GridStrategy.hedge_exit s2 env mid cap tr nv sv sp = (s2, []) ∨
    (∃ (pos : Position) (v : ℚ), GridStrategy.hedge_exit s2 env mid cap tr nv sv sp
      = ({ s2 with last_hedge_time := env.now },
         [Action.hedgeClose pos.ticket v])) := by
  by_cases h1 : 0 < sv ∧ s2.hedge_cooldown ≤ env.now - s2.last_hedge_time
  · by_cases h2 : nv ≤ cap * (1 - s2.hedge_fraction)
    · exact hedge_exit_go s2 env mid cap tr nv sv sp h1 (Or.inr h2)
    · rcases hep : s2.last_hedge_entry_price with _ | p
      · left
        unfold GridStrategy.hedge_exit
        dsimp only
        rw [if_pos h1]
        rw [if_neg ?hc]
        case hc =>
          rw [hep]
          intro hcon
          rcases hcon with hcon | hcon
          · exact Bool.false_ne_true hcon
          · exact h2 hcon
      · by_cases h3 : p + (s2.hedge_exit_steps : ℚ) * s2.step ≤ mid
        · have h := hedge_exit_go s2 env mid cap tr nv sv sp h1
            (Or.inl (by rw [hep]; dsimp only; rw [if_pos h3]))
          rw [hep] at h
          exact h
        · left
          unfold GridStrategy.hedge_exit
          dsimp only
          rw [if_pos h1]
          rw [if_neg ?hc]
          case hc =>
            rw [hep]
            intro hcon
            rcases hcon with hcon | hcon
            · dsimp only at hcon
              rw [if_neg h3] at hcon
              exact Bool.false_ne_true hcon
            · exact h2 hcon
  · left
    unfold GridStrategy.hedge_exit
    dsimp only
    rw [if_neg h1]

theorem countPlaces_hedge_entry (s1 : GridStrategy) (env : Env) (g : Bool)
    (mid cap ht tr gr nv sv : ℚ) :
    countPlaces (GridStrategy.hedge_entry s1 env g mid cap ht tr gr nv sv).2 = 0 := by
  rcases hedge_entry_cases s1 env g mid cap ht tr gr nv sv with h | ⟨_, _, _, _, h⟩ <;>
    simp [h, countPlaces]

theorem countPlaces_hedge_exit (s2 : GridStrategy) (env : Env)
    (mid cap tr nv sv : ℚ) (sp : List Position) :
    countPlaces (GridStrategy.hedge_exit s2 env mid cap tr nv sv sp).2 = 0 := by
  rcases hedge_exit_cases s2 env mid cap tr nv sv sp with h | ⟨pos, v, h⟩ <;>
    simp [h, countPlaces]

theorem countPlaces_hedge (s : GridStrategy) (env : Env) (tick : Tick)
    (ps : List Position) :
    countPlaces (s.hedge_manager env tick ps).2 = 0 := by
  unfold GridStrategy.hedge_manager
  simp only [countPlaces_append]
  have hbe : ∀ (l : List Position) (c : Position → Prop) [DecidablePred c]
      (s' : GridStrategy),
      countPlaces ((l.map (fun p =>
        if c p then s'.move_sell_sl_to_breakeven env p else [])).flatten) = 0 := by
    intro l c _ s'
    refine countPlaces_flatten_zero _ ?_
    intro x hx
    rcases List.mem_map.mp hx with ⟨p, _, rfl⟩
    split
    · exact countPlaces_moveSL s' env p
    · simp [countPlaces]
  refine Nat.add_eq_zero.mpr ⟨Nat.add_eq_zero.mpr ⟨?_, ?_⟩, ?_⟩
  · exact hbe _ _ _
  · exact countPlaces_hedge_entry _ _ _ _ _ _ _ _ _ _
  · exact countPlaces_hedge_exit _ _ _ _ _ _ _ _

theorem handle_order_error_fields (s : GridStrategy) (now : ℚ) (c : ℤ) :
    (s.handle_order_error now c).max_new_orders_per_update
        = s.max_new_orders_per_update ∧
    (s.handle_order_error now c).lot = s.lot ∧
    (s.handle_order_error now c).step = s.step ∧
    (s.handle_order_error now c).mode = s.mode ∧
    (s.handle_order_error now c).max_net_vol = s.max_net_vol := by
  unfold GridStrategy.handle_order_error
  split_ifs <;> exact ⟨rfl, rfl, rfl, rfl, rfl⟩

/-- Outcome analysis of the placement protocol under a well-behaved
gateway (success results carry a nonzero ticket): either the order was
not placed (no ticket, no action, risk fields untouched), or it was
placed with a truthy ticket, the strategy unchanged, and exactly the
one action recorded. -/
theorem pending_protocol_cases (s : GridStrategy) (env : Env)
    (mkReq : Bool → OrderRequest) (act : Action)
    (henv : ∀ req res, env.send req = some res →
      (res.retcode = 10009 ∨ res.retcode = 10008) → res.order ≠ 0) :
    (∃ s', GridStrategy.pending_protocol s env mkReq act = (s', none, []) ∧
      s'.max_new_orders_per_update = s.max_new_orders_per_update ∧
      s'.lot = s.lot ∧ s'.step = s.step ∧ s'.mode = s.mode ∧
      s'.max_net_vol = s.max_net_vol) ∨
    (∃ t, GridStrategy.pending_protocol s env mkReq act = (s, some t, [act]) ∧
      t ≠ 0) := by
  unfold GridStrategy.pending_protocol
  cases h0 : env.send (mkReq true) with
  | none => exact Or.inl ⟨s, rfl, rfl, rfl, rfl, rfl, rfl⟩
  | some r0 =>
    have core : ∀ (r1 : SendRes) (reqU : OrderRequest),
        env.send reqU = some r1 →
        ((∃ s', (if r1.retcode = 10009 ∨ r1.retcode = 10008 then
            (s, some r1.order, [act])
          else if r1.retcode = 10004 then
            match env.tick with
            | some _ =>
              match env.send reqU with
              | none => (s, none, [])
              | some r2 =>
                if r2.retcode = 10009 ∨ r2.retcode = 10008 then
                  (s, some r2.order, [act])
                else (s.handle_order_error env.now r2.retcode, none, [])
            | none => (s.handle_order_error env.now r1.retcode, none, [])
          else (s.handle_order_error env.now r1.retcode, none, []))
            = (s', none, []) ∧
          s'.max_new_orders_per_update = s.max_new_orders_per_update ∧
          s'.lot = s.lot ∧ s'.step = s.step ∧ s'.mode = s.mode ∧
          s'.max_net_vol = s.max_net_vol) ∨
        (∃ t, (if r1.retcode = 10009 ∨ r1.retcode = 10008 then
            (s, some r1.order, [act])
          else if r1.retcode = 10004 then
            match env.tick with
            | some _ =>
              match env.send reqU with
              | none => (s, none, [])
              | some r2 =>
                if r2.retcode = 10009 ∨ r2.retcode = 10008 then
                  (s, some r2.order, [act])
                else (s.handle_order_error env.now r2.retcode, none, [])
            | none => (s.handle_order_error env.now r1.retcode, none, [])
          else (s.handle_order_error env.now r1.retcode, none, []))
            = (s, some t, [act]) ∧ t ≠ 0)) := by
      intro r1 reqU h1
      by_cases hs1 : r1.retcode = 10009 ∨ r1.retcode = 10008
      · exact Or.inr ⟨r1.order, by simp [hs1], henv _ _ h1 hs1⟩
      · by_cases h04 : r1.retcode = 10004
        · cases ht : env.tick with
          | none =>
            refine Or.inl ⟨s.handle_order_error env.now r1.retcode, ?_, ?_⟩
            · simp [hs1, h04, ht]
            · have := handle_order_error_fields s env.now r1.retcode
              exact ⟨this.1, this.2.1, this.2.2.1, this.2.2.2.1, this.2.2.2.2⟩
          | some t2 =>
            cases h2 : env.send reqU with
            | none => exact Or.inl ⟨s, by simp [hs1, h04, ht, h2], rfl, rfl, rfl, rfl, rfl⟩
            | some r2 =>
              by_cases hs2 : r2.retcode = 10009 ∨ r2.retcode = 10008
              · exact Or.inr ⟨r2.order, by simp [hs1, h04, ht, h2, hs2],
                  henv _ _ h2 hs2⟩
              · refine Or.inl ⟨s.handle_order_error env.now r2.retcode, ?_, ?_⟩
                · simp [hs1, h04, ht, h2, hs2]
                · have := handle_order_error_fields s env.now r2.retcode
                  exact ⟨this.1, this.2.1, this.2.2.1, this.2.2.2.1, this.2.2.2.2⟩
        · refine Or.inl ⟨s.handle_order_error env.now r1.retcode, ?_, ?_⟩
          · simp [hs1, h04]
          · have := handle_order_error_fields s env.now r1.retcode
            exact ⟨this.1, this.2.1, this.2.2.1, this.2.2.2.1, this.2.2.2.2⟩
    by_cases h30 : r0.retcode = 10030
    · cases h1 : env.send (mkReq false) with
      | none => exact Or.inl ⟨s, by simp [h30, h1], rfl, rfl, rfl, rfl, rfl⟩
      | some r1 =>
        have := core r1 (mkReq false) h1
        simpa [h30, h1] using this
    · have := core r0 (mkReq true) h0
      simpa [h30] using this

theorem place_buy_order_cases (s : GridStrategy) (env : Env) (p : ℚ)
    (henv : ∀ req res, env.send req = some res →
      (res.retcode = 10009 ∨ res.retcode = 10008) → res.order ≠ 0) :
    (∃ s', s.place_buy_order env p = (s', none, []) ∧
      s'.max_new_orders_per_update = s.max_new_orders_per_update ∧
      s'.lot = s.lot ∧ s'.step = s.step ∧ s'.mode = s.mode ∧
      s'.max_net_vol = s.max_net_vol) ∨
    (∃ t, s.place_buy_order env p
        = (s, some t, [.placeBuy (s.normalize_price p)]) ∧ t ≠ 0) :=
  pending_protocol_cases s env _ _ henv

theorem place_sell_order_cases (s : GridStrategy) (env : Env) (p : ℚ)
    (henv : ∀ req res, env.send req = some res →
      (res.retcode = 10009 ∨ res.retcode = 10008) → res.order ≠ 0) :
    (∃ s', s.place_sell_order env p = (s', none, []) ∧
      s'.max_new_orders_per_update = s.max_new_orders_per_update ∧
      s'.lot = s.lot ∧ s'.step = s.step ∧ s'.mode = s.mode ∧
      s'.max_net_vol = s.max_net_vol) ∨
    (∃ t, s.place_sell_order env p
        = (s, some t, [.placeSell (s.normalize_price p)]) ∧ t ≠ 0) :=
  pending_protocol_cases s env _ _ henv

/-- Invariant of the buy fill loop: actions and `placed_count` grow in
lock-step, the count never passes the per-pass cap, and the cap
configuration itself is never mutated by the loop. -/
theorem fill_buys_bound (env : Env) (ex pp : List ℚ) (md ask lv sv pb ps : ℚ)
    (henv : ∀ req res, env.send req = some res →
      (res.retcode = 10009 ∨ res.retcode = 10008) → res.order ≠ 0)
    (ts : List ℚ) :
    ∀ st : FillState,
      countPlaces (GridStrategy.fill_buys env ex pp md ask lv sv pb ps ts st).acts
          + st.placed
        = countPlaces st.acts
          + (GridStrategy.fill_buys env ex pp md ask lv sv pb ps ts st).placed ∧
      (GridStrategy.fill_buys env ex pp md ask lv sv pb ps ts st).placed
        ≤ max st.placed st.s.max_new_orders_per_update ∧
      (GridStrategy.fill_buys env ex pp md ask lv sv pb ps ts st).s.max_new_orders_per_update
        = st.s.max_new_orders_per_update := by
  induction ts with
  | nil =>
    intro st
    exact ⟨by simp [GridStrategy.fill_buys], le_max_left _ _, rfl⟩
  | cons t rest ih =>
    intro st
    unfold GridStrategy.fill_buys
    by_cases h1 : st.stopped = true
    · rw [if_pos h1]
      refine ⟨?_, ?_, ?_⟩ <;> first | trivial | exact le_max_left _ _
    · rw [if_neg h1]
      by_cases h2 : st.s.max_new_orders_per_update ≤ st.placed
      · rw [if_pos h2]
        refine ⟨?_, ?_, ?_⟩ <;> first | trivial | exact le_max_left _ _
      · rw [if_neg h2]
        by_cases h3 : qElem t ex = true
        · rw [if_pos h3]
          exact ih st
        · rw [if_neg h3]
          by_cases h4 : pyAbs (t - ask) < md
          · rw [if_pos h4]
            exact ih st
          · rw [if_neg h4]
            by_cases h5 : GridStrategy.near_any pp t (st.s.step * (1/10)) = true
            · rw [if_pos h5]
              exact ih st
            · rw [if_neg h5]
              by_cases h6 : st.s.allow_side "buy" lv sv pb ps st.net = false
              · rw [if_pos h6]
                refine ⟨?_, ?_, ?_⟩ <;> first | trivial | exact le_max_left _ _
              · rw [if_neg h6]
                rcases place_buy_order_cases st.s env t henv with
                  ⟨s', heq, hcap, _, _, _, _⟩ | ⟨tk, heq, htk⟩
                · simp only [heq, List.append_nil]
                  obtain ⟨e1, e2, e3⟩ := ih
                    { s := s', placed := st.placed, net := st.net
                      acts := st.acts, stopped := false }
                  refine ⟨e1, ?_, by simpa [hcap] using e3⟩
                  calc (GridStrategy.fill_buys env ex pp md ask lv sv pb ps rest
                      { s := s', placed := st.placed, net := st.net
                        acts := st.acts, stopped := false }).placed
                      ≤ max st.placed s'.max_new_orders_per_update := e2
                    _ ≤ max st.placed st.s.max_new_orders_per_update := by
                        rw [hcap]
                · simp only [heq]
                  simp only [if_neg htk]
                  simp only [eq_self_iff_true, if_true]
                  obtain ⟨e1, e2, e3⟩ := ih
                    { s := st.s, placed := st.placed + 1, net := st.net + st.s.lot
                      acts := st.acts ++ [Action.placeBuy (st.s.normalize_price t)]
                      stopped := false }
                  dsimp only at e1 e2 e3
                  rw [countPlaces_append] at e1
                  simp only [countPlaces] at e1
                  refine ⟨by omega, ?_, e3⟩
                  omega

/-- Invariant of the sell fill loop (mirror of `fill_buys_bound`). -/
theorem fill_sells_bound (env : Env) (ex pp : List ℚ) (md bid lv sv pb ps : ℚ)
    (henv : ∀ req res, env.send req = some res →
      (res.retcode = 10009 ∨ res.retcode = 10008) → res.order ≠ 0)
    (ts : List ℚ) :
    ∀ st : FillState,
      countPlaces (GridStrategy.fill_sells env ex pp md bid lv sv pb ps ts st).acts
          + st.placed
        = countPlaces st.acts
          + (GridStrategy.fill_sells env ex pp md bid lv sv pb ps ts st).placed ∧
      (GridStrategy.fill_sells env ex pp md bid lv sv pb ps ts st).placed
        ≤ max st.placed st.s.max_new_orders_per_update ∧
      (GridStrategy.fill_sells env ex pp md bid lv sv pb ps ts st).s.max_new_orders_per_update
        = st.s.max_new_orders_per_update := by
  induction ts with
  | nil =>
    intro st
    exact ⟨by simp [GridStrategy.fill_sells], le_max_left _ _, rfl⟩
  | cons t rest ih =>
    intro st
    unfold GridStrategy.fill_sells
    by_cases h1 : st.stopped = true
    · rw [if_pos h1]
      refine ⟨?_, ?_, ?_⟩ <;> first | trivial | exact le_max_left _ _
    · rw [if_neg h1]
      by_cases h2 : st.s.max_new_orders_per_update ≤ st.placed
      · rw [if_pos h2]
        refine ⟨?_, ?_, ?_⟩ <;> first | trivial | exact le_max_left _ _
      · rw [if_neg h2]
        by_cases h3 : qElem t ex = true
        · rw [if_pos h3]
          exact ih st
        · rw [if_neg h3]
          by_cases h4 : pyAbs (t - bid) < md
          · rw [if_pos h4]
            exact ih st
          · rw [if_neg h4]
            by_cases h5 : GridStrategy.near_any pp t (st.s.step * (1/10)) = true
            · rw [if_pos h5]
              exact ih st
            · rw [if_neg h5]
              by_cases h6 : st.s.allow_side "sell" lv sv pb ps st.net = false
              · rw [if_pos h6]
                refine ⟨?_, ?_, ?_⟩ <;> first | trivial | exact le_max_left _ _
              · rw [if_neg h6]
                rcases place_sell_order_cases st.s env t henv with
                  ⟨s', heq, hcap, _, _, _, _⟩ | ⟨tk, heq, htk⟩
                · simp only [heq, List.append_nil]
                  obtain ⟨e1, e2, e3⟩ := ih
                    { s := s', placed := st.placed, net := st.net
                      acts := st.acts, stopped := false }
                  refine ⟨e1, ?_, by simpa [hcap] using e3⟩
                  calc (GridStrategy.fill_sells env ex pp md bid lv sv pb ps rest
                      { s := s', placed := st.placed, net := st.net
                        acts := st.acts, stopped := false }).placed
                      ≤ max st.placed s'.max_new_orders_per_update := e2
                    _ ≤ max st.placed st.s.max_new_orders_per_update := by
                        rw [hcap]
                · simp only [heq]
                  simp only [if_neg htk]
                  simp only [eq_self_iff_true, if_true]
                  obtain ⟨e1, e2, e3⟩ := ih
                    { s := st.s, placed := st.placed + 1, net := st.net - st.s.lot
                      acts := st.acts ++ [Action.placeSell (st.s.normalize_price t)]
                      stopped := false }
                  dsimp only at e1 e2 e3
                  rw [countPlaces_append] at e1
                  simp only [countPlaces] at e1
                  refine ⟨by omega, ?_, e3⟩
                  omega

theorem calculate_atr_cap (s : GridStrategy) (env : Env) :
    (s.calculate_atr env).1.max_new_orders_per_update
      = s.max_new_orders_per_update := by
  unfold GridStrategy.calculate_atr
  repeat' split
  all_goals rfl

theorem atr_apply_step_cap (s : GridStrategy) (a : Option ℚ) :
    (s.atr_apply_step a).max_new_orders_per_update
      = s.max_new_orders_per_update := by
  rcases a with _ | v
  · rfl
  · by_cases hv : v = 0
    · simp [GridStrategy.atr_apply_step, hv]
    · by_cases hth : s.atr_change_threshold <
          pyAbs (pyRoundTo (v * s.atr_factor) 5 - s.step) / s.step
      · simp [GridStrategy.atr_apply_step, hv, hth]
      · simp [GridStrategy.atr_apply_step, hv, hth]

theorem init_anchor_cap (s : GridStrategy) (mid : ℚ) :
    (s.init_anchor_if_needed mid).max_new_orders_per_update
      = s.max_new_orders_per_update := by
  unfold GridStrategy.init_anchor_if_needed
  split
  all_goals rfl

theorem maybe_recenter_cap (s : GridStrategy) (mid now : ℚ) :
    (s.maybe_recenter mid now).1.max_new_orders_per_update
      = s.max_new_orders_per_update := by
  by_cases h1 : now - s.last_recenter_time < s.recenter_cooldown
  · simp [GridStrategy.maybe_recenter, h1]
  · by_cases h2 : pyAbs ((mid - s.anchor.getD 0) / s.step) < (s.recenter_steps : ℚ)
    · simp [GridStrategy.maybe_recenter, h1, h2]
    · simp [GridStrategy.maybe_recenter, h1, h2]

theorem get_m1_rates_cached_cap (s : GridStrategy) (env : Env) :
    (s.get_m1_rates_cached env).1.max_new_orders_per_update
      = s.max_new_orders_per_update := by
  unfold GridStrategy.get_m1_rates_cached
  repeat' split
  all_goals rfl

theorem hedge_entry_cap (s1 : GridStrategy) (env : Env) (g : Bool)
    (mid cap ht tr gr nv sv : ℚ) :
    (GridStrategy.hedge_entry s1 env g mid cap ht tr gr nv sv).1.max_new_orders_per_update
      = s1.max_new_orders_per_update := by
  rcases hedge_entry_cases s1 env g mid cap ht tr gr nv sv with h | ⟨_, _, _, _, h⟩ <;>
    simp [h]

theorem hedge_exit_cap (s2 : GridStrategy) (env : Env)
    (mid cap tr nv sv : ℚ) (sp : List Position) :
    (GridStrategy.hedge_exit s2 env mid cap tr nv sv sp).1.max_new_orders_per_update
      = s2.max_new_orders_per_update := by
  rcases hedge_exit_cases s2 env mid cap tr nv sv sp with h | ⟨pos, v, h⟩ <;>
    simp [h]

theorem hedge_manager_cap (s : GridStrategy) (env : Env) (tick : Tick)
    (ps : List Position) :
    (s.hedge_manager env tick ps).1.max_new_orders_per_update
      = s.max_new_orders_per_update := by
  unfold GridStrategy.hedge_manager
  rw [hedge_exit_cap, hedge_entry_cap, get_m1_rates_cached_cap]

/-- The two fill loops, composed as in `maintain_orders`, place at most
`max_new_orders_per_update` orders in total. -/
theorem fill_compose_bound (env : Env)
    (henv : ∀ req res, env.send req = some res →
      (res.retcode = 10009 ∨ res.retcode = 10008) → res.order ≠ 0)
    (exb exs pp : List ℚ) (md ask bid lv sv pb ps net : ℚ)
    (s4 : GridStrategy) (tb ts : List ℚ) :
    countPlaces (GridStrategy.fill_sells env exs pp md bid lv sv pb ps ts
      { GridStrategy.fill_buys env exb pp md ask lv sv pb ps tb
          { s := s4, placed := 0, net := net, acts := [], stopped := false } with
        stopped := false }).acts
      ≤ s4.max_new_orders_per_update := by
  obtain ⟨b1, b2, b3⟩ := fill_buys_bound env exb pp md ask lv sv pb ps henv tb
    { s := s4, placed := 0, net := net, acts := [], stopped := false }
  obtain ⟨s1, s2, s3⟩ := fill_sells_bound env exs pp md bid lv sv pb ps henv ts
    { GridStrategy.fill_buys env exb pp md ask lv sv pb ps tb
        { s := s4, placed := 0, net := net, acts := [], stopped := false } with
      stopped := false }
  dsimp only at b1 b2 b3 s1 s2 s3 ⊢
  simp only [countPlaces] at b1
  omega

/-- `maintain_orders` places at most `max_new_orders_per_update` new
pending orders. -/
theorem countPlaces_maintain (s4 : GridStrategy) (env : Env) (tick : Tick)
    (mo : List Order) (mp : List Position) (mid : ℚ)
    (henv : ∀ req res, env.send req = some res →
      (res.retcode = 10009 ∨ res.retcode = 10008) → res.order ≠ 0) :
    countPlaces (GridStrategy.maintain_orders s4 env tick mo mp mid).2
      ≤ s4.max_new_orders_per_update := by
  unfold GridStrategy.maintain_orders
  simp only [countPlaces_append, countPlaces_trim, Nat.zero_add]
  exact fill_compose_bound env henv _ _ _ _ _ _ _ _ _ _ _ s4 _ _

/-- C4: in any single reconciliation pass, the number of newly placed
pending limit orders (buy and sell combined) is at most
`max_new_orders_per_update`, for every book state and configuration,
provided the gateway returns nonzero tickets on successful placements. -/
theorem places_per_update_bounded (s : GridStrategy) (env : Env)
    (ol : List Order) (pl : List Position)
    (henv : ∀ req res, env.send req = some res →
      (res.retcode = 10009 ∨ res.retcode = 10008) → res.order ≠ 0) :
    countPlaces (s.update env ol pl).2 ≤ s.max_new_orders_per_update := by
  unfold GridStrategy.update
  by_cases he : s.enabled = false
  · rw [if_pos he]; simp [countPlaces]
  · rw [if_neg he]
    by_cases hp : env.now < s.pause_until
    · rw [if_pos hp]; simp [countPlaces]
    · rw [if_neg hp]
      rcases ht : env.tick with _ | tick
      · simp only [ht]; simp [countPlaces]
      · simp only [ht]
        try dsimp only
        by_cases hb : tick.bid ≤ 0
        · rw [if_pos hb]; simp [countPlaces]
        · rw [if_neg hb]
          by_cases hm : 600 < pyAbs (env.now - tick.time)
          · rw [if_pos hm]; simp [countPlaces]
          · rw [if_neg hm]
            by_cases hf : (match s.max_spread_points with
                | none => false
                | some msp =>
                  if msp * s.info.point < tick.ask - tick.bid then true
                  else false) = true
            · rw [if_pos hf]; simp [countPlaces]
            · rw [if_neg hf]
              by_cases hstop : ((tick.bid + tick.ask) / 2 <
                    (if s.use_atr = true then
                      ((s.calculate_atr env).1.atr_apply_step (s.calculate_atr env).2)
                    else s).min_price ∨
                  (if s.use_atr = true then
                      ((s.calculate_atr env).1.atr_apply_step (s.calculate_atr env).2)
                    else s).max_price < (tick.bid + tick.ask) / 2) ∧
                  (if s.use_atr = true then
                      ((s.calculate_atr env).1.atr_apply_step (s.calculate_atr env).2)
                    else s).out_of_range_action = "stop"
              · rw [if_pos hstop]
                unfold GridStrategy.clear_old_orders
                simp [countPlaces_clear_go]
              · rw [if_neg hstop]
                by_cases hfr : ((tick.bid + tick.ask) / 2 <
                      (if s.use_atr = true then
                        ((s.calculate_atr env).1.atr_apply_step (s.calculate_atr env).2)
                      else s).min_price ∨
                    (if s.use_atr = true then
                        ((s.calculate_atr env).1.atr_apply_step (s.calculate_atr env).2)
                      else s).max_price < (tick.bid + tick.ask) / 2) ∧
                    (if s.use_atr = true then
                        ((s.calculate_atr env).1.atr_apply_step (s.calculate_atr env).2)
                      else s).out_of_range_action = "freeze"
                · rw [if_pos hfr]; simp [countPlaces]
                · rw [if_neg hfr]
                  have hcap : ∀ (s3 : GridStrategy) (mo : List Order)
                      (mp : List Position) (mid : ℚ),
                      countPlaces ((if s3.hedge_enabled = true ∧ s3.mode = "long" ∧
                            s3.max_net_vol ≠ none then
                          s3.hedge_manager env tick mp
                        else (s3, [])).2 ++
                        (GridStrategy.maintain_orders
                          (if s3.hedge_enabled = true ∧ s3.mode = "long" ∧
                              s3.max_net_vol ≠ none then
                            s3.hedge_manager env tick mp
                          else (s3, [])).1 env tick mo mp mid).2)
                        ≤ s3.max_new_orders_per_update := by
                    intro s3 mo mp mid
                    rw [countPlaces_append]
                    by_cases hg : s3.hedge_enabled = true ∧ s3.mode = "long" ∧
                        s3.max_net_vol ≠ none
                    · rw [if_pos hg, countPlaces_hedge]
                      have := countPlaces_maintain
                        ((s3.hedge_manager env tick mp).1) env tick mo mp mid henv
                      rw [hedge_manager_cap] at this
                      omega
                    · rw [if_neg hg]
                      simp only [countPlaces]
                      have := countPlaces_maintain s3 env tick mo mp mid henv
                      omega
                  have hchain :
                      (((if s.use_atr = true then
                          ((s.calculate_atr env).1.atr_apply_step (s.calculate_atr env).2)
                        else s).init_anchor_if_needed
                          ((tick.bid + tick.ask) / 2)).maybe_recenter
                          ((tick.bid + tick.ask) / 2) env.now).1.max_new_orders_per_update
                        = s.max_new_orders_per_update := by
                    rw [maybe_recenter_cap, init_anchor_cap]
                    by_cases hu : s.use_atr = true
                    · rw [if_pos hu, atr_apply_step_cap, calculate_atr_cap]
                    · rw [if_neg hu]
                  rw [← hchain]
                  exact hcap _ _ _ _

/-- Witness for C4: the gateway of the C2 scenario returns no results at
all, so the hypothesis holds vacuously and zero orders are placed. -/
theorem places_per_update_bounded_witness :
    countPlaces (gridS2.update gridEnv2 [] []).2 ≤
      gridS2.max_new_orders_per_update :=
  places_per_update_bounded gridS2 gridEnv2 [] []
    (fun req res h => by simp [gridEnv2] at h)

/-- C2 counterexample: in the spec's scenario (step 200, anchor unset,
mid 50000, windows 2) the pass stores the sell targets sorted
descending, so the generated sell-target list is not `[50200, 50400]`. -/
theorem grid_scenario_counterexample :
    ¬ ((gridS2.update gridEnv2 [] []).1.target_sells gridTick2 50000
        = [50200, 50400]) := by
  norm_num [gridS2, gridEnv2, gridTick2, GridStrategy.update, GridStrategy.init,
    defaultInfo, GridStrategy.calculate_atr, GridStrategy.atr_apply_step,
    GridStrategy.init_anchor_if_needed, GridStrategy.maybe_recenter,
    GridStrategy.hedge_manager, GridStrategy.maintain_orders,
    GridStrategy.target_buys, GridStrategy.target_sells,
    GridStrategy.buy_levels, GridStrategy.sell_levels, GridStrategy.trim_cancels,
    GridStrategy.calc_exposure, GridStrategy.fill_buys, GridStrategy.fill_sells,
    GridStrategy.place_buy_order, GridStrategy.place_sell_order,
    GridStrategy.pending_protocol,
    GridStrategy.normalize_price, GridStrategy.normalize_volume,
    GridStrategy.allow_side, GridStrategy.get_grid_level, GridStrategy.near_any,
    pyRound, pyRoundTo, pyAbs, pyMax, pyMin, qSum, qElem, pySortDesc, insDesc]

/-- C2 amended: one pass initializes the anchor to 50000, the target buy
levels are `[49800, 49600]`, and the target sell levels are the same
prices as the spec's `[50200, 50400]` but stored descending:
`[50400, 50200]`. -/
theorem grid_scenario_amended :
    (gridS2.update gridEnv2 [] []).1.anchor = some 50000 ∧
    (gridS2.update gridEnv2 [] []).1.target_buys gridTick2 50000
      = [49800, 49600] ∧
    (gridS2.update gridEnv2 [] []).1.target_sells gridTick2 50000
      = [50400, 50200] := by
  refine ⟨?_, ?_, ?_⟩ <;>
    norm_num [gridS2, gridEnv2, gridTick2, GridStrategy.update, GridStrategy.init,
      defaultInfo, GridStrategy.calculate_atr, GridStrategy.atr_apply_step,
      GridStrategy.init_anchor_if_needed, GridStrategy.maybe_recenter,
      GridStrategy.hedge_manager, GridStrategy.maintain_orders,
    GridStrategy.target_buys, GridStrategy.target_sells,
      GridStrategy.buy_levels, GridStrategy.sell_levels, GridStrategy.trim_cancels,
      GridStrategy.calc_exposure, GridStrategy.fill_buys, GridStrategy.fill_sells,
      GridStrategy.place_buy_order, GridStrategy.place_sell_order,
    GridStrategy.pending_protocol,
      GridStrategy.normalize_price, GridStrategy.normalize_volume,
      GridStrategy.allow_side, GridStrategy.get_grid_level, GridStrategy.near_any,
      pyRound, pyRoundTo, pyAbs, pyMax, pyMin, qSum, qElem, pySortDesc, insDesc]


/-- C5 counterexample: in a neutral-mode pass where the risk gate denies
the prospective buy (`|net + lot| = 2 > cap = 1`), the buy loop breaks
having placed nothing, yet the pass as a whole still places the sell
order afterwards — a gate denial does not stop placement of further
orders of the other side. -/
theorem gate_stop_counterexample :
    gateS5A.target_buys ⟨50000, 50000, 1000⟩ 50000 = [49800] ∧
    gateS5A.allow_side "buy" 1 0 0 0 1 = false ∧
    (GridStrategy.fill_buys gateEnv5 [] [50500] (1/10) 50000 1 0 0 0
        (gateS5A.target_buys ⟨50000, 50000, 1000⟩ 50000)
        { s := gateS5A, placed := 0, net := 1, acts := [], stopped := false }).stopped
      = true ∧
    (GridStrategy.fill_buys gateEnv5 [] [50500] (1/10) 50000 1 0 0 0
        (gateS5A.target_buys ⟨50000, 50000, 1000⟩ 50000)
        { s := gateS5A, placed := 0, net := 1, acts := [], stopped := false }).acts
      = [] ∧
    (gateS5.update gateEnv5 [] [gatePos5]).2 = [Action.placeSell 50200] := by
  refine ⟨?_, ?_, ?_, ?_, ?_⟩ <;>
    [skip; skip; skip; skip; skip] <;>
    first
    | (norm_num [gateS5, gateS5A, gateEnv5, gatePos5, GridStrategy.update,
       GridStrategy.init, defaultInfo, GridStrategy.calculate_atr,
       GridStrategy.atr_apply_step, GridStrategy.init_anchor_if_needed,
       GridStrategy.maybe_recenter, GridStrategy.hedge_manager,
       GridStrategy.maintain_orders, GridStrategy.target_buys,
       GridStrategy.target_sells, GridStrategy.buy_levels,
       GridStrategy.sell_levels, GridStrategy.trim_cancels,
       GridStrategy.calc_exposure, GridStrategy.fill_buys,
       GridStrategy.fill_sells, GridStrategy.place_buy_order,
       GridStrategy.place_sell_order, GridStrategy.pending_protocol,
       GridStrategy.normalize_price, GridStrategy.normalize_volume,
       GridStrategy.allow_side, GridStrategy.get_grid_level,
       GridStrategy.near_any, pyRound, pyRoundTo, pyAbs, pyMax, pyMin, qSum,
       qElem, pySortDesc, insDesc]
       done)
    | (norm_num [gateS5, gateS5A, gateEnv5, gatePos5, GridStrategy.update,
       GridStrategy.init, defaultInfo, GridStrategy.calculate_atr,
       GridStrategy.atr_apply_step, GridStrategy.init_anchor_if_needed,
       GridStrategy.maybe_recenter, GridStrategy.hedge_manager,
       GridStrategy.maintain_orders, GridStrategy.target_buys,
       GridStrategy.target_sells, GridStrategy.buy_levels,
       GridStrategy.sell_levels, GridStrategy.trim_cancels,
       GridStrategy.calc_exposure, GridStrategy.fill_buys,
       GridStrategy.fill_sells, GridStrategy.place_buy_order,
       GridStrategy.place_sell_order, GridStrategy.pending_protocol,
       GridStrategy.normalize_price, GridStrategy.normalize_volume,
       GridStrategy.allow_side, GridStrategy.get_grid_level,
       GridStrategy.near_any, pyRound, pyRoundTo, pyAbs, pyMax, pyMin, qSum,
       qElem, pySortDesc, insDesc]
       rw [if_neg (by decide)])
    

/-- C5 amended: a gate denial is a per-side break.  On the denying side
the loop returns at once with `stopped` set (no further targets of that
side are placed), and a loop whose incoming state is already stopped
processes no target at all; each side's loop starts with its own fresh
`stopped := false` flag, so a denial on one side does not stop the
other. -/
theorem gate_denial_stops_side (env : Env) (ex pp : List ℚ)
    (md ask bid lv sv pb ps t : ℚ) (rest ts : List ℚ) (st st2 : FillState)
    (hns : st.stopped = false)
    (hcap : st.placed < st.s.max_new_orders_per_update)
    (hex : qElem t ex = false)
    (hfar : ¬ (pyAbs (t - ask) < md))
    (hfarb : ¬ (pyAbs (t - bid) < md))
    (hnear : GridStrategy.near_any pp t (st.s.step * (1/10)) = false)
    (hstop : st2.stopped = true) :
    (st.s.allow_side "buy" lv sv pb ps st.net = false →
      GridStrategy.fill_buys env ex pp md ask lv sv pb ps (t :: rest) st
        = { st with stopped := true }) ∧
    (st.s.allow_side "sell" lv sv pb ps st.net = false →
      GridStrategy.fill_sells env ex pp md bid lv sv pb ps (t :: rest) st
        = { st with stopped := true }) ∧
    GridStrategy.fill_buys env ex pp md ask lv sv pb ps ts st2 = st2 ∧
    GridStrategy.fill_sells env ex pp md bid lv sv pb ps ts st2 = st2 := by
  refine ⟨?_, ?_, ?_, ?_⟩
  · intro hdeny
    simp only [GridStrategy.fill_buys]
    rw [if_neg (by simp [hns]), if_neg (not_le.mpr hcap),
      if_neg (by simp [hex]), if_neg hfar, if_neg (by simpa using hnear),
      if_pos hdeny]
  · intro hdeny
    simp only [GridStrategy.fill_sells]
    rw [if_neg (by simp [hns]), if_neg (not_le.mpr hcap),
      if_neg (by simp [hex]), if_neg hfarb, if_neg (by simpa using hnear),
      if_pos hdeny]
  · cases ts with
    | nil => rfl
    | cons a l =>
      simp only [GridStrategy.fill_buys]
      rw [if_pos hstop]
  · cases ts with
    | nil => rfl
    | cons a l =>
      simp only [GridStrategy.fill_sells]
      rw [if_pos hstop]

theorem gate_denial_stops_side_witness :
    gateS5.allow_side "buy" 1 0 0 0 1 = false ∧
    GridStrategy.fill_buys gateEnv5 [] [50500] (1/10) 50000 1 0 0 0
        [49800] (FillState.mk gateS5 0 1 [] false)
      = { FillState.mk gateS5 0 1 [] false with stopped := true } := by
  have hdeny : gateS5.allow_side "buy" 1 0 0 0 1 = false := by
    norm_num [GridStrategy.allow_side, gateS5, GridStrategy.init, pyAbs]
  have h := gate_denial_stops_side gateEnv5 [] [50500] (1/10) 50000 50000
      1 0 0 0 49800 [] [50200] (FillState.mk gateS5 0 1 [] false)
      (FillState.mk gateS5 0 1 [] true) rfl
      (by norm_num [gateS5, GridStrategy.init])
      rfl (by norm_num [pyAbs]) (by norm_num [pyAbs])
      (by norm_num [GridStrategy.near_any, pyAbs, gateS5, GridStrategy.init])
      rfl
  exact ⟨hdeny, h.1 hdeny⟩

/-- `sum` of a constant list. -/
theorem qSum_replicate (n : ℕ) (x : ℚ) :
    qSum (List.replicate n x) = n * x := by
  induction n with
  | zero => simp [qSum]
  | succ k ih =>
    rw [List.replicate_succ]
    simp only [qSum, ih]
    push_cast
    ring

/-- Inserting an element into a constant list of itself. -/
theorem insAsc_replicate (n : ℕ) (x : ℚ) :
    insAsc x (List.replicate n x) = List.replicate (n + 1) x := by
  cases n with
  | zero => rfl
  | succ k =>
    rw [List.replicate_succ]
    simp [insAsc, List.replicate_succ]

/-- `sorted` of a constant list is itself. -/
theorem pySorted_replicate (n : ℕ) (x : ℚ) :
    pySorted (List.replicate n x) = List.replicate n x := by
  induction n with
  | zero => rfl
  | succ k ih =>
    rw [List.replicate_succ]
    simp only [pySorted]
    rw [ih, insAsc_replicate]
    rw [List.replicate_succ]

/-- `getD` on a constant list. -/
theorem getD_replicate (n i : ℕ) (x d : ℚ) (h : i < n) :
    (List.replicate n x).getD i d = x := by
  rw [List.getD_eq_getElem?_getD, List.getElem?_replicate, if_pos h]
  rfl

set_option maxRecDepth 8192 in
set_option maxHeartbeats 1000000 in
/-- The volatility gate passes on 315 constant bars of range 10 when
`lookback = 11`, `window = 1`, `quantile = 9/10`. -/
theorem volatility_gate_const (s : GridStrategy) (b : Bar)
    (hlb : s.hedge_vol_lookback = 11) (hw : s.hedge_vol_window = 1)
    (hq : s.hedge_vol_quantile = 9/10) (hb : b.high - b.low = 10) :
    GridStrategy.volatility_gate s (List.replicate 315 b) = true := by
  unfold GridStrategy.volatility_gate GridStrategy.quantile
  rw [hlb, hw, hq]
  norm_num [pyLastN, List.length_replicate, List.drop_replicate,
    List.take_replicate, List.map_replicate, hb, qSum_replicate,
    pySorted_replicate, List.replicate_succ, qSum, List.getD, pySorted,
    insAsc, show Int.toNat 9 = 9 from rfl, min_self]

set_option maxRecDepth 8192 in
set_option maxHeartbeats 1000000 in
/-- The volume gate passes on 315 constant bars of tick-volume 100 when
`base = 1`, `window = 1`, `mult = 1`. -/
theorem volume_gate_const (s : GridStrategy) (b : Bar)
    (hbase : s.hedge_vol_base = 1) (hw : s.hedge_vol_window = 1)
    (hm : s.hedge_vol_mult = 1) (hv : b.tick_volume = 100) :
    GridStrategy.volume_gate s (List.replicate 315 b) = true := by
  unfold GridStrategy.volume_gate
  rw [hbase, hw, hm]
  norm_num [pyLastN, pySliceNeg, List.length_replicate, List.map_replicate,
    List.drop_replicate, List.take_replicate, hv, qSum_replicate, qSum,
    List.replicate_succ]

set_option maxHeartbeats 2000000 in
/-- C6 counterexample: with `max_net_vol = 1` and `hedge_fraction =
3/1000`, an entry pass sends a hedge of the broker-normalized volume
`1/100` (the `vol_min` clamp of `_normalize_volume`), which exceeds
`cap * hedge_fraction = 3/1000` — the short hedge volume invariant is
violated by the volume normalization. -/
theorem hedge_cap_counterexample :
    (hedgeS6.update hedgeEnv6 [] [hedgePos6]).2 = [Action.hedgeOpen (1/100)] ∧
    hedgeS6.max_net_vol.getD 0 * hedgeS6.hedge_fraction = 3/1000 ∧
    ¬ ((1:ℚ)/100 ≤ 3/1000) := by
  refine ⟨?_, by norm_num [hedgeS6, GridStrategy.init], by norm_num⟩
  norm_num [hedgeS6, hedgeEnv6, hedgePos6, hedgeBar6, GridStrategy.update,
    GridStrategy.init, defaultInfo, GridStrategy.calculate_atr,
    GridStrategy.atr_apply_step, GridStrategy.init_anchor_if_needed,
    GridStrategy.maybe_recenter, GridStrategy.hedge_manager,
    GridStrategy.get_m1_rates_cached, volatility_gate_const, volume_gate_const,
    GridStrategy.hedge_entry, GridStrategy.hedge_exit,
    GridStrategy.open_hedge_sell, GridStrategy.close_sell_position,
    GridStrategy.min_by_ticket, GridStrategy.move_sell_sl_to_breakeven,
    GridStrategy.maintain_orders, GridStrategy.target_buys,
    GridStrategy.target_sells, GridStrategy.buy_levels, GridStrategy.sell_levels,
    GridStrategy.trim_cancels, GridStrategy.calc_exposure,
    GridStrategy.fill_buys, GridStrategy.fill_sells,
    GridStrategy.normalize_price, GridStrategy.normalize_volume,
    GridStrategy.allow_side, GridStrategy.get_grid_level, GridStrategy.near_any,
    pyRound, pyRoundTo, pyAbs, pyMax, pyMin, qSum, qElem, pySortDesc, insDesc,
    List.length_replicate, Option.some_ne_none]
  decide

/-- C6 amended: when a hedge entry fires, all the claimed trigger
conditions did hold (gate boolean, `cap ≤ net`, `short < target`,
cooldown, price-move trigger), and the REQUESTED volume
`min(tranche, target - short)` keeps the short volume within
`cap * hedge_fraction`; what is sent, however, is its broker
normalization `_normalize_volume(...)`, which the counterexample shows
can exceed that bound. -/
theorem hedge_entry_conditions (s1 : GridStrategy) (env : Env) (g : Bool)
    (mid cap ht tr gr nv sv : ℚ)
    (hht : ht = cap * s1.hedge_fraction)
    (hne : (GridStrategy.hedge_entry s1 env g mid cap ht tr gr nv sv).2 ≠ []) :
    g = true ∧ cap ≤ nv ∧ sv < ht ∧
    s1.hedge_cooldown ≤ env.now - s1.last_hedge_time ∧
    (s1.last_hedge_entry_price = none ∨
      ∃ p, s1.last_hedge_entry_price = some p ∧
        mid ≤ p - (s1.hedge_entry_steps : ℚ) * s1.step) ∧
    sv + pyMin tr (ht - sv) ≤ cap * s1.hedge_fraction ∧
    (GridStrategy.hedge_entry s1 env g mid cap ht tr gr nv sv).2
      = [Action.hedgeOpen (s1.normalize_volume (pyMin tr (ht - sv)))] := by
  rcases hedge_entry_cases s1 env g mid cap ht tr gr nv sv with
    h | ⟨h1, h2, h3, h4, h5⟩
  · exact absurd (congrArg Prod.snd h) hne
  · have hmin : pyMin tr (ht - sv) ≤ ht - sv := by
      unfold pyMin
      split <;> linarith
    exact ⟨h2, h1.1, h1.2, h3, h4, by rw [← hht]; linarith, by rw [h5]⟩

theorem hedge_entry_conditions_witness :
    (GridStrategy.hedge_entry hedgeS6 hedgeEnv6 true 50000 1 (3/1000)
        (3/1000) 1 1 0).2 ≠ [] ∧
    (0:ℚ) + pyMin (3/1000) (3/1000 - 0) ≤ 1 * hedgeS6.hedge_fraction ∧
    (GridStrategy.hedge_entry hedgeS6 hedgeEnv6 true 50000 1 (3/1000)
        (3/1000) 1 1 0).2
      = [Action.hedgeOpen
          (hedgeS6.normalize_volume (pyMin (3/1000) (3/1000 - 0)))] := by
  have hne : (GridStrategy.hedge_entry hedgeS6 hedgeEnv6 true 50000 1 (3/1000)
      (3/1000) 1 1 0).2 ≠ [] := by
    norm_num [GridStrategy.hedge_entry, GridStrategy.open_hedge_sell, hedgeS6,
      hedgeEnv6, GridStrategy.init, defaultInfo, GridStrategy.normalize_volume,
      GridStrategy.normalize_price, pyRound, pyRoundTo, pyMin, pyMax]
  have h := hedge_entry_conditions hedgeS6 hedgeEnv6 true 50000 1 (3/1000)
    (3/1000) 1 1 0 (by norm_num [hedgeS6, GridStrategy.init]) hne
  exact ⟨hne, h.2.2.2.2.2.1, h.2.2.2.2.2.2⟩

/-! ### Branch equations of `update` and pass stability (C9) -/

/-- A disabled strategy's pass is a no-op. -/
theorem update_disabled (s : GridStrategy) (env : Env) (ol : List Order)
    (pl : List Position) (he : s.enabled = false) :
    s.update env ol pl = (s, []) := by
  unfold GridStrategy.update
  rw [if_pos he]

/-- A paused strategy's pass is a no-op. -/
theorem update_paused (s : GridStrategy) (env : Env) (ol : List Order)
    (pl : List Position) (he : ¬ s.enabled = false)
    (hp : env.now < s.pause_until) :
    s.update env ol pl = (s, []) := by
  unfold GridStrategy.update
  rw [if_neg he, if_pos hp]

/-- A missing tick pauses for 5 seconds. -/
theorem update_no_tick (s : GridStrategy) (env : Env) (ol : List Order)
    (pl : List Position) (he : ¬ s.enabled = false)
    (hp : ¬ env.now < s.pause_until) (htk : env.tick = none) :
    s.update env ol pl = ({ s with pause_until := env.now + 5 }, []) := by
  unfold GridStrategy.update
  rw [if_neg he, if_neg hp, htk]

/-- A non-positive bid pauses for 5 seconds. -/
theorem update_bad_bid (s : GridStrategy) (env : Env) (ol : List Order)
    (pl : List Position) (tick : Tick) (he : ¬ s.enabled = false)
    (hp : ¬ env.now < s.pause_until) (htk : env.tick = some tick)
    (hb : tick.bid ≤ 0) :
    s.update env ol pl = ({ s with pause_until := env.now + 5 }, []) := by
  unfold GridStrategy.update
  rw [if_neg he, if_neg hp, htk]
  dsimp only
  rw [if_pos hb]

/-- A stale tick (more than 600 s old) makes the pass a no-op. -/
theorem update_stale (s : GridStrategy) (env : Env) (ol : List Order)
    (pl : List Position) (tick : Tick) (he : ¬ s.enabled = false)
    (hp : ¬ env.now < s.pause_until) (htk : env.tick = some tick)
    (hb : ¬ tick.bid ≤ 0) (hst : 600 < pyAbs (env.now - tick.time)) :
    s.update env ol pl = (s, []) := by
  unfold GridStrategy.update
  rw [if_neg he, if_neg hp, htk]
  dsimp only
  rw [if_neg hb, if_pos hst]

/-- A blown spread fuse pauses for `extreme_cooldown`. -/
theorem update_fuse (s : GridStrategy) (env : Env) (ol : List Order)
    (pl : List Position) (tick : Tick) (he : ¬ s.enabled = false)
    (hp : ¬ env.now < s.pause_until) (htk : env.tick = some tick)
    (hb : ¬ tick.bid ≤ 0) (hst : ¬ 600 < pyAbs (env.now - tick.time))
    (hfuse : (match s.max_spread_points with
      | none => false
      | some msp =>
        if msp * s.info.point < tick.ask - tick.bid then true
        else false) = true) :
    s.update env ol pl
      = ({ s with pause_until := env.now + s.extreme_cooldown }, []) := by
  unfold GridStrategy.update
  rw [if_neg he, if_neg hp, htk]
  dsimp only
  rw [if_neg hb, if_neg hst]
  rw [hfuse, if_pos rfl]

/-- Out-of-range with the `stop` action: disable and sweep old orders. -/
theorem update_stop (s : GridStrategy) (env : Env) (ol : List Order)
    (pl : List Position) (tick : Tick) (he : ¬ s.enabled = false)
    (hp : ¬ env.now < s.pause_until) (htk : env.tick = some tick)
    (hb : ¬ tick.bid ≤ 0) (hst : ¬ 600 < pyAbs (env.now - tick.time))
    (hfuse : (match s.max_spread_points with
      | none => false
      | some msp =>
        if msp * s.info.point < tick.ask - tick.bid then true
        else false) = false)
    (hatr : s.use_atr = false)
    (hr1 : ((tick.bid + tick.ask) / 2 < s.min_price ∨
        s.max_price < (tick.bid + tick.ask) / 2) ∧
      s.out_of_range_action = "stop") :
    s.update env ol pl
      = GridStrategy.clear_old_orders { s with enabled := false } env := by
  unfold GridStrategy.update
  rw [if_neg he, if_neg hp, htk]
  dsimp only
  rw [if_neg hb, if_neg hst]
  rw [hfuse, if_neg Bool.false_ne_true,
    if_neg (show ¬ s.use_atr = true by simp [hatr])]
  rw [if_pos hr1]

/-- Out-of-range with the `freeze` action: no actions, state kept. -/
theorem update_freeze (s : GridStrategy) (env : Env) (ol : List Order)
    (pl : List Position) (tick : Tick) (he : ¬ s.enabled = false)
    (hp : ¬ env.now < s.pause_until) (htk : env.tick = some tick)
    (hb : ¬ tick.bid ≤ 0) (hst : ¬ 600 < pyAbs (env.now - tick.time))
    (hfuse : (match s.max_spread_points with
      | none => false
      | some msp =>
        if msp * s.info.point < tick.ask - tick.bid then true
        else false) = false)
    (hatr : s.use_atr = false)
    (hr1 : ¬ (((tick.bid + tick.ask) / 2 < s.min_price ∨
        s.max_price < (tick.bid + tick.ask) / 2) ∧
      s.out_of_range_action = "stop"))
    (hr2 : ((tick.bid + tick.ask) / 2 < s.min_price ∨
        s.max_price < (tick.bid + tick.ask) / 2) ∧
      s.out_of_range_action = "freeze") :
    s.update env ol pl = (s, []) := by
  unfold GridStrategy.update
  rw [if_neg he, if_neg hp, htk]
  dsimp only
  rw [if_neg hb, if_neg hst]
  rw [hfuse, if_neg Bool.false_ne_true,
    if_neg (show ¬ s.use_atr = true by simp [hatr])]
  rw [if_neg hr1, if_pos hr2]

/-- The main branch of a pass with ATR adaptation and hedging off:
the whole pass is the order-maintenance step on the anchor-adjusted
strategy. -/
theorem update_main_nohedge (s : GridStrategy) (env : Env) (ol : List Order)
    (pl : List Position) (tick : Tick) (he : ¬ s.enabled = false)
    (hp : ¬ env.now < s.pause_until) (htk : env.tick = some tick)
    (hb : ¬ tick.bid ≤ 0) (hst : ¬ 600 < pyAbs (env.now - tick.time))
    (hfuse : (match s.max_spread_points with
      | none => false
      | some msp =>
        if msp * s.info.point < tick.ask - tick.bid then true
        else false) = false)
    (hatr : s.use_atr = false)
    (hr1 : ¬ (((tick.bid + tick.ask) / 2 < s.min_price ∨
        s.max_price < (tick.bid + tick.ask) / 2) ∧
      s.out_of_range_action = "stop"))
    (hr2 : ¬ (((tick.bid + tick.ask) / 2 < s.min_price ∨
        s.max_price < (tick.bid + tick.ask) / 2) ∧
      s.out_of_range_action = "freeze"))
    (hhedge : ((s.init_anchor_if_needed ((tick.bid + tick.ask) / 2)).maybe_recenter
        ((tick.bid + tick.ask) / 2) env.now).1.hedge_enabled = false) :
    s.update env ol pl
      = GridStrategy.maintain_orders
          ((s.init_anchor_if_needed ((tick.bid + tick.ask) / 2)).maybe_recenter
            ((tick.bid + tick.ask) / 2) env.now).1 env tick
          (ol.filter (fun o =>
            if o.magic = s.magic ∧ o.symbol = s.symbol then true else false))
          (pl.filter (fun p =>
            if p.symbol = s.symbol ∧ p.magic = s.magic then true else false))
          ((tick.bid + tick.ask) / 2) := by
  unfold GridStrategy.update
  rw [if_neg he, if_neg hp, htk]
  dsimp only
  rw [if_neg hb, if_neg hst]
  rw [hfuse, if_neg Bool.false_ne_true,
    if_neg (show ¬ s.use_atr = true by simp [hatr])]
  rw [if_neg hr1, if_neg hr2]
  rw [if_neg (by simp [hhedge])]
  simp

/-- The order-error handler always leaves the strategy in a state that
short-circuits an immediately following pass. -/
theorem handle_order_error_shortcut (s : GridStrategy) (now : ℚ) (c : ℤ) :
    Shortcut now (s.handle_order_error now c) := by
  unfold GridStrategy.handle_order_error Shortcut
  split_ifs <;>
    first
    | exact Or.inl rfl
    | exact Or.inr ⟨300, by norm_num, rfl⟩
    | exact Or.inr ⟨1, le_refl 1, rfl⟩
    | exact Or.inr ⟨5, by norm_num, rfl⟩

/-- The placement protocol either leaves the strategy untouched or
leaves it in a shortcut state (the only mutation is the error handler). -/
theorem pending_protocol_state (s : GridStrategy) (env : Env)
    (mkReq : Bool → OrderRequest) (act : Action) :
    (GridStrategy.pending_protocol s env mkReq act).1 = s ∨
    Shortcut env.now (GridStrategy.pending_protocol s env mkReq act).1 := by
  unfold GridStrategy.pending_protocol
  repeat' first
  | split
  | dsimp only
  all_goals
    first
    | (left; rfl)
    | (right; exact handle_order_error_shortcut _ _ _)

/-- `_place_buy_order` state outcome. -/
theorem place_buy_order_state (s : GridStrategy) (env : Env) (p : ℚ) :
    (s.place_buy_order env p).1 = s ∨
    Shortcut env.now (s.place_buy_order env p).1 :=
  pending_protocol_state s env _ _

/-- `_place_sell_order` state outcome. -/
theorem place_sell_order_state (s : GridStrategy) (env : Env) (p : ℚ) :
    (s.place_sell_order env p).1 = s ∨
    Shortcut env.now (s.place_sell_order env p).1 :=
  pending_protocol_state s env _ _

/-- The buy fill loop either keeps the strategy untouched or leaves it in
a shortcut state. -/
theorem fill_buys_state (env : Env) (ex pp : List ℚ) (md ask lv sv pb ps : ℚ) :
    ∀ (ts : List ℚ) (st : FillState),
      (GridStrategy.fill_buys env ex pp md ask lv sv pb ps ts st).s = st.s ∨
      Shortcut env.now (GridStrategy.fill_buys env ex pp md ask lv sv pb ps ts st).s := by
  intro ts
  induction ts with
  | nil => intro st; left; rfl
  | cons t rest ih =>
    intro st
    simp only [GridStrategy.fill_buys]
    by_cases h1 : st.stopped = true
    · rw [if_pos h1]
      left
      rfl
    · rw [if_neg h1]
      by_cases h2 : st.s.max_new_orders_per_update ≤ st.placed
      · rw [if_pos h2]
        left
        rfl
      · rw [if_neg h2]
        by_cases h3 : qElem t ex = true
        · rw [if_pos h3]
          exact ih st
        · rw [if_neg h3]
          by_cases h4 : pyAbs (t - ask) < md
          · rw [if_pos h4]
            exact ih st
          · rw [if_neg h4]
            by_cases h5 : GridStrategy.near_any pp t (st.s.step * (1/10)) = true
            · rw [if_pos h5]
              exact ih st
            · rw [if_neg h5]
              by_cases h6 : st.s.allow_side "buy" lv sv pb ps st.net = false
              · rw [if_pos h6]
                left
                rfl
              · rw [if_neg h6]
                rcases ih { s := (st.s.place_buy_order env t).1
                            placed := if (match (st.s.place_buy_order env t).2.1 with
                              | some tk => if tk = 0 then false else true
                              | none => false) = true then st.placed + 1 else st.placed
                            net := if (match (st.s.place_buy_order env t).2.1 with
                              | some tk => if tk = 0 then false else true
                              | none => false) = true then st.net + st.s.lot else st.net
                            acts := st.acts ++ (st.s.place_buy_order env t).2.2
                            stopped := false } with h | h
                · rw [h]
                  exact (place_buy_order_state st.s env t).imp_left id
                · right
                  exact h

/-- The sell fill loop, mirror statement. -/
theorem fill_sells_state (env : Env) (ex pp : List ℚ) (md bid lv sv pb ps : ℚ) :
    ∀ (ts : List ℚ) (st : FillState),
      (GridStrategy.fill_sells env ex pp md bid lv sv pb ps ts st).s = st.s ∨
      Shortcut env.now (GridStrategy.fill_sells env ex pp md bid lv sv pb ps ts st).s := by
  intro ts
  induction ts with
  | nil => intro st; left; rfl
  | cons t rest ih =>
    intro st
    simp only [GridStrategy.fill_sells]
    by_cases h1 : st.stopped = true
    · rw [if_pos h1]
      left
      rfl
    · rw [if_neg h1]
      by_cases h2 : st.s.max_new_orders_per_update ≤ st.placed
      · rw [if_pos h2]
        left
        rfl
      · rw [if_neg h2]
        by_cases h3 : qElem t ex = true
        · rw [if_pos h3]
          exact ih st
        · rw [if_neg h3]
          by_cases h4 : pyAbs (t - bid) < md
          · rw [if_pos h4]
            exact ih st
          · rw [if_neg h4]
            by_cases h5 : GridStrategy.near_any pp t (st.s.step * (1/10)) = true
            · rw [if_pos h5]
              exact ih st
            · rw [if_neg h5]
              by_cases h6 : st.s.allow_side "sell" lv sv pb ps st.net = false
              · rw [if_pos h6]
                left
                rfl
              · rw [if_neg h6]
                rcases ih { s := (st.s.place_sell_order env t).1
                            placed := if (match (st.s.place_sell_order env t).2.1 with
                              | some tk => if tk = 0 then false else true
                              | none => false) = true then st.placed + 1 else st.placed
                            net := if (match (st.s.place_sell_order env t).2.1 with
                              | some tk => if tk = 0 then false else true
                              | none => false) = true then st.net - st.s.lot else st.net
                            acts := st.acts ++ (st.s.place_sell_order env t).2.2
                            stopped := false } with h | h
                · rw [h]
                  exact (place_sell_order_state st.s env t).imp_left id
                · right
                  exact h

/-- Order maintenance either keeps the strategy untouched or leaves it in
a shortcut state. -/
theorem maintain_orders_state (s4 : GridStrategy) (env : Env) (tick : Tick)
    (mo : List Order) (mp : List Position) (mid : ℚ) :
    (GridStrategy.maintain_orders s4 env tick mo mp mid).1 = s4 ∨
    Shortcut env.now (GridStrategy.maintain_orders s4 env tick mo mp mid).1 := by
  unfold GridStrategy.maintain_orders
  dsimp only
  rcases fill_sells_state env _ _ _ _ _ _ _ _ _ _ with h | h
  · rw [h]
    dsimp only
    rcases fill_buys_state env _ _ _ _ _ _ _ _ _ _ with h2 | h2
    · rw [h2]
      left
      rfl
    · right
      exact h2
  · right
    exact h

/-- Anchor initialization is a no-op once the anchor is set. -/
theorem init_anchor_noop (s : GridStrategy) (mid : ℚ) (h : s.anchor ≠ none) :
    s.init_anchor_if_needed mid = s := by
  unfold GridStrategy.init_anchor_if_needed
  rcases ha : s.anchor with _ | a
  · exact absurd ha h
  · rfl

/-- Recentering never unsets the anchor. -/
theorem recenter_keeps_anchor_some (s : GridStrategy) (mid now : ℚ)
    (h : s.anchor ≠ none) :
    (s.maybe_recenter mid now).1.anchor ≠ none := by
  unfold GridStrategy.maybe_recenter
  dsimp only
  split_ifs <;> simpa using h

/-- The anchor steps of a pass only touch `anchor` and
`last_recenter_time`: every field read by the pass guards is kept. -/
theorem anchor_ops_fields (s : GridStrategy) (mid now : ℚ) :
    (((s.init_anchor_if_needed mid).maybe_recenter mid now).1.enabled = s.enabled) ∧
    ((s.init_anchor_if_needed mid).maybe_recenter mid now).1.pause_until = s.pause_until ∧
    ((s.init_anchor_if_needed mid).maybe_recenter mid now).1.magic = s.magic ∧
    ((s.init_anchor_if_needed mid).maybe_recenter mid now).1.symbol = s.symbol ∧
    ((s.init_anchor_if_needed mid).maybe_recenter mid now).1.use_atr = s.use_atr ∧
    ((s.init_anchor_if_needed mid).maybe_recenter mid now).1.max_spread_points
      = s.max_spread_points ∧
    ((s.init_anchor_if_needed mid).maybe_recenter mid now).1.info = s.info ∧
    ((s.init_anchor_if_needed mid).maybe_recenter mid now).1.min_price = s.min_price ∧
    ((s.init_anchor_if_needed mid).maybe_recenter mid now).1.max_price = s.max_price ∧
    ((s.init_anchor_if_needed mid).maybe_recenter mid now).1.out_of_range_action
      = s.out_of_range_action ∧
    ((s.init_anchor_if_needed mid).maybe_recenter mid now).1.hedge_enabled
      = s.hedge_enabled ∧
    ((s.init_anchor_if_needed mid).maybe_recenter mid now).1.recenter_cooldown
      = s.recenter_cooldown := by
  unfold GridStrategy.init_anchor_if_needed GridStrategy.maybe_recenter
  rcases ha : s.anchor with _ | a <;> dsimp only <;> split_ifs <;>
    exact ⟨rfl, rfl, rfl, rfl, rfl, rfl, rfl, rfl, rfl, rfl, rfl, rfl⟩

/-- With a positive recenter cooldown, repeating the anchor steps at the
same instant changes nothing further. -/
theorem anchor_ops_stable (s : GridStrategy) (mid now : ℚ)
    (hcool : 0 < s.recenter_cooldown) :
    ((((s.init_anchor_if_needed mid).maybe_recenter mid now).1.init_anchor_if_needed
        mid).maybe_recenter mid now).1
      = ((s.init_anchor_if_needed mid).maybe_recenter mid now).1 := by
  have hsome : (s.init_anchor_if_needed mid).anchor ≠ none := by
    unfold GridStrategy.init_anchor_if_needed
    rcases ha : s.anchor with _ | a
    · simp
    · simp [ha]
  have hcool1 : (s.init_anchor_if_needed mid).recenter_cooldown
      = s.recenter_cooldown := by
    unfold GridStrategy.init_anchor_if_needed
    rcases ha : s.anchor with _ | a <;> rfl
  rcases hf : ((s.init_anchor_if_needed mid).maybe_recenter mid now).2 with _ | _
  · have h1 := maybe_recenter_noop (s.init_anchor_if_needed mid) mid now hf
    rw [h1, init_anchor_noop _ _ hsome, h1]
  · have h2 := maybe_recenter_fired (s.init_anchor_if_needed mid) mid now hf
    have hsome2 := recenter_keeps_anchor_some (s.init_anchor_if_needed mid)
      mid now hsome
    set s3 := ((s.init_anchor_if_needed mid).maybe_recenter mid now).1 with hs3
    rw [init_anchor_noop s3 mid hsome2]
    unfold GridStrategy.maybe_recenter
    rw [if_pos (by rw [h2.2.1, h2.2.2, hcool1]; linarith)]

/-- The old-order sweep preserves `enabled`. -/
theorem clear_go_enabled (s : GridStrategy) (env : Env) :
    ∀ ol : List Order,
      (GridStrategy.clear_old_orders_go s env ol).1.enabled = s.enabled := by
  intro ol
  induction ol with
  | nil => rfl
  | cons o rest ih =>
    simp only [GridStrategy.clear_old_orders_go]
    split
    · split
      · split
        · rfl
        · exact ih
      · exact ih
    · exact ih

/-- C9 amended: a pass that performs no market actions is stable — for a
strategy with ATR adaptation off, hedging off and a positive recenter
cooldown, immediately repeating the pass with the same environment and
book again performs no actions.  (Idempotence as claimed is false: a
pass that DID place an order re-places it on the second call, since the
unchanged book does not show the new order — see the counterexample.) -/
theorem pass_no_action_stable (s : GridStrategy) (env : Env)
    (ol : List Order) (pl : List Position)
    (hatr : s.use_atr = false)
    (hhedge : s.hedge_enabled = false)
    (hcool : 0 < s.recenter_cooldown)
    (hacts : (s.update env ol pl).2 = []) :
    ((s.update env ol pl).1.update env ol pl).2 = [] := by
  by_cases he : s.enabled = false
  · rw [update_disabled s env ol pl he]
    exact hacts
  · by_cases hp : env.now < s.pause_until
    · rw [update_paused s env ol pl he hp]
      exact hacts
    · cases htk : env.tick with
      | none =>
        rw [update_no_tick s env ol pl he hp htk]
        dsimp only
        rw [update_paused { s with pause_until := env.now + 5 } env ol pl he
          (show env.now < env.now + 5 by linarith)]
      | some tick =>
        by_cases hb : tick.bid ≤ 0
        · rw [update_bad_bid s env ol pl tick he hp htk hb]
          dsimp only
          rw [update_paused { s with pause_until := env.now + 5 } env ol pl he
            (show env.now < env.now + 5 by linarith)]
        · by_cases hst : 600 < pyAbs (env.now - tick.time)
          · rw [update_stale s env ol pl tick he hp htk hb hst]
            exact hacts
          · by_cases hfuse : (match s.max_spread_points with
              | none => false
              | some msp =>
                if msp * s.info.point < tick.ask - tick.bid then true
                else false) = true
            · rw [update_fuse s env ol pl tick he hp htk hb hst hfuse]
              dsimp only
              by_cases hec : env.now < env.now + s.extreme_cooldown
              · rw [update_paused
                  { s with pause_until := env.now + s.extreme_cooldown }
                  env ol pl he hec]
              · rw [update_fuse
                  { s with pause_until := env.now + s.extreme_cooldown }
                  env ol pl tick he hec htk hb hst hfuse]
            · have hfuse2 : (match s.max_spread_points with
                | none => false
                | some msp =>
                  if msp * s.info.point < tick.ask - tick.bid then true
                  else false) = false := by
                rcases hM : (match s.max_spread_points with
                  | none => false
                  | some msp =>
                    if msp * s.info.point < tick.ask - tick.bid then true
                    else false) with _ | _
                · exact hM
                · exact absurd hM hfuse
              by_cases hr1 : ((tick.bid + tick.ask) / 2 < s.min_price ∨
                  s.max_price < (tick.bid + tick.ask) / 2) ∧
                s.out_of_range_action = "stop"
              · rw [update_stop s env ol pl tick he hp htk hb hst hfuse2 hatr hr1]
                rw [update_disabled
                  (GridStrategy.clear_old_orders { s with enabled := false }
                    env).1 env ol pl
                  (clear_go_enabled { s with enabled := false } env
                    env.symOrders)]
              · by_cases hr2 : ((tick.bid + tick.ask) / 2 < s.min_price ∨
                    s.max_price < (tick.bid + tick.ask) / 2) ∧
                  s.out_of_range_action = "freeze"
                · rw [update_freeze s env ol pl tick he hp htk hb hst hfuse2
                    hatr hr1 hr2]
                  exact hacts
                · have hhedge3 : ((s.init_anchor_if_needed
                      ((tick.bid + tick.ask) / 2)).maybe_recenter
                      ((tick.bid + tick.ask) / 2) env.now).1.hedge_enabled
                      = false := by
                    rw [(anchor_ops_fields s ((tick.bid + tick.ask) / 2)
                      env.now).2.2.2.2.2.2.2.2.2.2.1]
                    exact hhedge
                  rw [update_main_nohedge s env ol pl tick he hp htk hb hst
                    hfuse2 hatr hr1 hr2 hhedge3] at hacts ⊢
                  set S3 := ((s.init_anchor_if_needed
                    ((tick.bid + tick.ask) / 2)).maybe_recenter
                    ((tick.bid + tick.ask) / 2) env.now).1 with hS3
                  set MO := ol.filter (fun o =>
                    if o.magic = s.magic ∧ o.symbol = s.symbol then true
                    else false) with hMO
                  set MP := pl.filter (fun p =>
                    if p.symbol = s.symbol ∧ p.magic = s.magic then true
                    else false) with hMP
                  rcases maintain_orders_state S3 env tick MO MP
                      ((tick.bid + tick.ask) / 2) with hm | hm
                  · rw [hm]
                    have hf := anchor_ops_fields s ((tick.bid + tick.ask) / 2)
                      env.now
                    rw [← hS3] at hf
                    obtain ⟨hf1, hf2, hf3, hf4, hf5, hf6, hf7, hf8, hf9, hf10,
                      hf11, hf12⟩ := hf
                    have e1 : ¬ S3.enabled = false := by
                      rw [hf1]
                      exact he
                    have e2 : ¬ env.now < S3.pause_until := by
                      rw [hf2]
                      exact hp
                    have e3 : (match S3.max_spread_points with
                      | none => false
                      | some msp =>
                        if msp * S3.info.point < tick.ask - tick.bid then true
                        else false) = false := by
                      rw [hf6, hf7]
                      exact hfuse2
                    have e4 : S3.use_atr = false := by
                      rw [hf5]
                      exact hatr
                    have e5 : ¬ (((tick.bid + tick.ask) / 2 < S3.min_price ∨
                        S3.max_price < (tick.bid + tick.ask) / 2) ∧
                      S3.out_of_range_action = "stop") := by
                      rw [hf8, hf9, hf10]
                      exact hr1
                    have e6 : ¬ (((tick.bid + tick.ask) / 2 < S3.min_price ∨
                        S3.max_price < (tick.bid + tick.ask) / 2) ∧
                      S3.out_of_range_action = "freeze") := by
                      rw [hf8, hf9, hf10]
                      exact hr2
                    have e7 : ((S3.init_anchor_if_needed
                        ((tick.bid + tick.ask) / 2)).maybe_recenter
                        ((tick.bid + tick.ask) / 2) env.now).1.hedge_enabled
                        = false := by
                      rw [(anchor_ops_fields S3 ((tick.bid + tick.ask) / 2)
                        env.now).2.2.2.2.2.2.2.2.2.2.1, hf11]
                      exact hhedge
                    rw [update_main_nohedge S3 env ol pl tick e1 e2 htk hb hst
                      e3 e4 e5 e6 e7]
                    have hstab := anchor_ops_stable s ((tick.bid + tick.ask) / 2)
                      env.now hcool
                    rw [← hS3] at hstab
                    rw [hstab, hf3, hf4, ← hMO, ← hMP]
                    exact hacts
                  · rcases hm with hdis | ⟨c, hc1, hc2⟩
                    · rw [update_disabled _ env ol pl hdis]
                    · by_cases hde : (GridStrategy.maintain_orders S3 env tick
                          MO MP ((tick.bid + tick.ask) / 2)).1.enabled = false
                      · rw [update_disabled _ env ol pl hde]
                      · rw [update_paused _ env ol pl hde
                          (by rw [hc2]; linarith)]

set_option maxHeartbeats 2000000 in
/-- C9 counterexample: with the tick and the order/position book
unchanged, the second reconciliation pass is NOT free of new actions —
it places the same sell order again (the unchanged book does not contain
the order placed by the first pass, so the fill step re-places it). -/
theorem idempotence_counterexample :
    (idemS9.update idemEnv9 [] [idemPos9]).2 = [Action.placeSell 60200] ∧
    ((idemS9.update idemEnv9 [] [idemPos9]).1.update idemEnv9 [] [idemPos9]).2
      = [Action.placeSell 60200] := by
  constructor <;>
    first
    | (norm_num [idemS9, idemEnv9, idemPos9, GridStrategy.update,
      GridStrategy.init, defaultInfo, GridStrategy.calculate_atr,
      GridStrategy.atr_apply_step, GridStrategy.init_anchor_if_needed,
      GridStrategy.maybe_recenter, GridStrategy.hedge_manager,
      GridStrategy.maintain_orders, GridStrategy.target_buys,
      GridStrategy.target_sells, GridStrategy.buy_levels,
      GridStrategy.sell_levels, GridStrategy.trim_cancels,
      GridStrategy.calc_exposure, GridStrategy.fill_buys,
      GridStrategy.fill_sells, GridStrategy.place_buy_order,
      GridStrategy.place_sell_order, GridStrategy.pending_protocol,
      GridStrategy.normalize_price, GridStrategy.normalize_volume,
      GridStrategy.allow_side, GridStrategy.get_grid_level,
      GridStrategy.near_any, pyRound, pyRoundTo, pyAbs, pyMax, pyMin, qSum,
      qElem, pySortDesc, insDesc, show ("sell":String) ≠ "buy" by decide]
       done)
    | (norm_num [idemS9, idemEnv9, idemPos9, GridStrategy.update,
      GridStrategy.init, defaultInfo, GridStrategy.calculate_atr,
      GridStrategy.atr_apply_step, GridStrategy.init_anchor_if_needed,
      GridStrategy.maybe_recenter, GridStrategy.hedge_manager,
      GridStrategy.maintain_orders, GridStrategy.target_buys,
      GridStrategy.target_sells, GridStrategy.buy_levels,
      GridStrategy.sell_levels, GridStrategy.trim_cancels,
      GridStrategy.calc_exposure, GridStrategy.fill_buys,
      GridStrategy.fill_sells, GridStrategy.place_buy_order,
      GridStrategy.place_sell_order, GridStrategy.pending_protocol,
      GridStrategy.normalize_price, GridStrategy.normalize_volume,
      GridStrategy.allow_side, GridStrategy.get_grid_level,
      GridStrategy.near_any, pyRound, pyRoundTo, pyAbs, pyMax, pyMin, qSum,
      qElem, pySortDesc, insDesc, show ("sell":String) ≠ "buy" by decide]
       rw [if_neg (by decide)])

theorem pass_no_action_stable_witness :
    idemS9.use_atr = false ∧ idemS9.hedge_enabled = false ∧
    (0:ℚ) < idemS9.recenter_cooldown ∧
    (idemS9.update idemEnv9n [] []).2 = [] ∧
    ((idemS9.update idemEnv9n [] []).1.update idemEnv9n [] []).2 = [] := by
  have hacts : (idemS9.update idemEnv9n [] []).2 = [] := by
    norm_num [GridStrategy.update, idemS9, idemEnv9n, GridStrategy.init,
      defaultInfo]
  exact ⟨rfl, rfl, by norm_num [idemS9, GridStrategy.init], hacts,
    pass_no_action_stable idemS9 idemEnv9n [] [] rfl rfl
      (by norm_num [idemS9, GridStrategy.init]) hacts⟩

end Inv

